import Mathlib

/-!
# The noa engine core (`index.js`): frame loop, block targeting, fire events, block registry

A shallow embedding of the engine object of `index.js`.

* JavaScript numbers are modelled exactly: cell coordinates and face normals are
  integers, continuous positions, extents and distances are rationals, block and
  material ids are natural numbers.  Rounding, `NaN` and infinities are outside the model.
* The engine's collaborators (world storage, the `voxel-raycast` ray query, the `aabb-3d`
  intersection test, the `gl-vec3` rotations, the `tick` methods of world, controls,
  physics and inputs) are not part of `index.js`; they are the fields of `Collab`, so
  everything proved holds for every implementation of them.
* Every call the engine makes on a collaborator is appended to the ghost field `calls`,
  which is how "is called once", "is not called" and call arguments are stated.
* A JavaScript exception is the `error` side of `Except JSError`.
-/

namespace Noa

/-! ## Data model -/

/-- A three-element JavaScript array `[x, y, z]`. -/
structure Vec3 (α : Type) where
  x : α
  y : α
  z : α
deriving DecidableEq, Repr

/-- An integer grid cell (`_blockTargetLoc`, `_blockPlacementLoc`). -/
abbrev Cell := Vec3 Int

/-- A continuous position or direction. -/
abbrev Point := Vec3 ℚ

/-- The cell read as a continuous position. -/
def Cell.toPoint (c : Cell) : Point := ⟨(c.x : ℚ), (c.y : ℚ), (c.z : ℚ)⟩

/-- An `aabb-3d` box, given as in `new aabb(pos, vec)` by its base and its extents. -/
structure AABB where
  base : Point
  vec : Point
deriving DecidableEq, Repr

/-- The call `new aabb(pos, vec)`. -/
def aabb (pos vec : Point) : AABB := ⟨pos, vec⟩

/-- A JavaScript exception raised while the engine runs. -/
inductive JSError where
  | typeError
deriving DecidableEq, Repr

/-- A call made by the engine on one of its collaborators. -/
inductive Call where
  | setBlock (id : Nat) (x y z : Int)
  | getBlock (x y z : Int)
  | traceRay (pos vec : Point) (dist : ℚ)
  | highlightBlock (active : Bool) (x y z : Option Int)
  | worldTick (dt : Int)
  | controlsTick (dt : Int)
  | physicsTick (dt : Int)
  | inputsTick (dt : Int)
deriving DecidableEq, Repr

/-- What the ray query leaves behind: its return value and the two arrays it fills. -/
structure RayHit where
  block : Nat
  hitPos : Point
  hitNorm : Cell
deriving DecidableEq, Repr

/-- The value `pick` returns on a hit. -/
structure PickResult where
  block : Nat
  position : Point
  normal : Cell
deriving DecidableEq, Repr

/-- The body returned by `physics.addBody`; only its box is read. -/
structure PlayerBody where
  aabb : AABB
deriving DecidableEq, Repr

/-- The field `rendering._camera.rotation`. -/
structure Rotation where
  x : ℚ
  y : ℚ
deriving DecidableEq, Repr

/-- The fields of `inputs.state` that the engine touches. -/
structure InputState where
  dx : ℚ
  dy : ℚ
  fire : Bool
deriving DecidableEq, Repr

/-- The collaborators of the engine over a world store `W`.  A `tick` of a collaborator
acts on the part of the state that collaborator owns and reads what it is handed. -/
structure Collab (W : Type) where
  /-- Reads `world.getBlock(x, y, z)`. -/
  getBlock : W → Int → Int → Int → Nat
  /-- Runs `world.setBlock(id, x, y, z)`. -/
  setBlock : W → Nat → Int → Int → Int → W
  /-- Runs `raycast(world, pos, vec, dist, hitPos, hitNorm)`. -/
  raycast : W → Point → Point → ℚ → RayHit
  /-- Runs `a.intersects(b)` of `aabb-3d`. -/
  intersects : AABB → AABB → Bool
  /-- Runs `vec3.rotateX(out, a, origin, angle)`. -/
  rotateX : Point → Point → ℚ → Point
  /-- Runs `vec3.rotateY(out, a, origin, angle)`. -/
  rotateY : Point → Point → ℚ → Point
  /-- Runs `world.tick(dt)`: chunk management around the player. -/
  worldTick : W → PlayerBody → Int → W
  /-- Runs `controls.tick(dt)`: turns the input state into movement of the body and,
  through the camera accessor, a new camera rotation. -/
  controlsTick : InputState → PlayerBody → Rotation → Int → PlayerBody × Rotation
  /-- Runs `physics.tick(dt)`: moves the body within the world. -/
  physicsTick : W → PlayerBody → Int → PlayerBody
  /-- Runs `inputs.tick(dt)` on the input state. -/
  inputsTick : InputState → Int → InputState

/-- An entry of `blockMaterialMap`, also what `blockToMaterial` can return. -/
inductive MatEntry where
  | undefined
  | null
  | scalar (m : Nat)
  | faces (l : List Nat)
deriving DecidableEq, Repr

/-- An entry of `materialColors`. -/
inductive ColorEntry where
  | undefined
  | null
  | rgb (c : Point)
deriving DecidableEq, Repr

/-- An entry of `materialTextures`. -/
inductive TexEntry where
  | undefined
  | null
  | path (s : String)
deriving DecidableEq, Repr

/-- The constructor options that `index.js` reads. -/
structure Opts where
  blockTestDistance : Option ℚ
  texturePath : String
deriving DecidableEq, Repr

/-- The engine object `noa`. -/
structure Engine (W : Type) where
  world : W
  playerBody : PlayerBody
  cameraRotation : Rotation
  inputsState : InputState
  pointerLock : Bool
  blockTestDistance : ℚ
  _placeBlockID : Nat
  _blockTargetLoc : Option Cell
  _blockPlacementLoc : Option Cell
  _lastTick : Option Int
  blockMaterialMap : List MatEntry
  materialColors : List ColorEntry
  materialTextures : List TexEntry
  /-- Ghost field: the collaborator calls made so far, oldest first. -/
  calls : List Call

/-! ## JavaScript arrays -/

/-- Reading `a[i]`: a hole or an index past the end reads as `u` (`undefined`). -/
def arrGet {α : Type} (u : α) (a : List α) (i : Nat) : α := a.getD i u

/-- Writing `a[i] = v`: past the end the array grows and the gap is left as holes. -/
def arrSet {α : Type} (u : α) (a : List α) (i : Nat) (v : α) : List α :=
  if i < a.length then a.set i v else a ++ List.replicate (i - a.length) u ++ [v]

/-! ## Registry -/

/-- The method `blockToMaterial(id, dir)`: `m.length` throws on `undefined` and `null`,
is `undefined` (falsy) on a number, and is the length on an array. -/
def blockToMaterial {W : Type} (noa : Engine W) (id dir : Nat) : Except JSError MatEntry :=
  match arrGet MatEntry.undefined noa.blockMaterialMap id with
  | MatEntry.undefined => Except.error JSError.typeError
  | MatEntry.null => Except.error JSError.typeError
  | MatEntry.scalar m => Except.ok (MatEntry.scalar m)
  | MatEntry.faces l =>
    if l.length ≠ 0 then
      Except.ok (match l.get? dir with
        | some v => MatEntry.scalar v
        | none => MatEntry.undefined)
    else Except.ok (MatEntry.faces l)

/-- The method `defineBlock(id, matID)`. -/
def defineBlock {W : Type} (noa : Engine W) (id : Nat) (matID : MatEntry) : Engine W :=
  { noa with blockMaterialMap := arrSet MatEntry.undefined noa.blockMaterialMap id matID }

/-- The method `defineMaterial(id, col, tex)`; `tex` is `none` for a falsy argument. -/
def defineMaterial {W : Type} (opts : Opts) (noa : Engine W) (id : Nat) (col : Point)
    (tex : Option String) : Engine W :=
  { noa with
    materialColors := arrSet ColorEntry.undefined noa.materialColors id (ColorEntry.rgb col)
    materialTextures := arrSet TexEntry.undefined noa.materialTextures id
      (match tex with
        | some t => if t = "" then TexEntry.null else TexEntry.path (opts.texturePath ++ t ++ ".png")
        | none => TexEntry.null) }

/-! ## Utility API -/

/-- The method `getCameraPosition()`: the body's base plus the offset `[1/3, 3/2, 1/3]`. -/
def getCameraPosition {W : Type} (noa : Engine W) : Point :=
  let b := noa.playerBody.aabb.base
  ⟨b.x + 1 / 3, b.y + 3 / 2, b.z + 1 / 3⟩

/-- The method `getPlayerPosition()`: the body's base plus the offset `[1/3, 0, 1/3]`. -/
def getPlayerPosition {W : Type} (noa : Engine W) : Point :=
  let b := noa.playerBody.aabb.base
  ⟨b.x + 1 / 3, b.y + 0, b.z + 1 / 3⟩

/-- The method `getCameraVector()`: the forward vector `(0,0,1)` rotated about x, then y. -/
def getCameraVector {W : Type} (c : Collab W) (noa : Engine W) : Point :=
  let crot := noa.cameraRotation
  let cvec : Point := ⟨0, 0, 1⟩
  let cvec := c.rotateX cvec ⟨0, 0, 0⟩ crot.x
  c.rotateY cvec ⟨0, 0, 0⟩ crot.y

/-- The method `pick(pos, vec, dist)`; an omitted argument is `none`.  An array is always
truthy, a distance is falsy when it is `0`, a block id is falsy when it is `0`. -/
def pick {W : Type} (c : Collab W) (noa : Engine W) (pos vec : Option Point)
    (dist : Option ℚ) : Option PickResult × Engine W :=
  let pos := match pos with
    | some p => p
    | none => getCameraPosition noa
  let vec := match vec with
    | some v => v
    | none => getCameraVector c noa
  let dist := match dist with
    | some d => if d = 0 then noa.blockTestDistance else d
    | none => noa.blockTestDistance
  let r := c.raycast noa.world pos vec dist
  let noa1 := { noa with calls := noa.calls ++ [Call.traceRay pos vec dist] }
  if r.block ≠ 0 then
    (some { block := r.block, position := r.hitPos, normal := r.hitNorm }, noa1)
  else (none, noa1)

/-- The method `doBlockTargeting()`. -/
def doBlockTargeting {W : Type} (c : Collab W) (noa : Engine W) : Engine W :=
  match pick c noa none none none with
  | (some result, noa1) =>
    let loc : Cell := ⟨⌊result.position.x⌋, ⌊result.position.y⌋, ⌊result.position.z⌋⟩
    let norm := result.normal
    { noa1 with
      _blockTargetLoc := some loc
      _blockPlacementLoc := some ⟨loc.x + norm.x, loc.y + norm.y, loc.z + norm.z⟩
      calls := noa1.calls ++ [Call.highlightBlock true (some loc.x) (some loc.y) (some loc.z)] }
  | (none, noa1) =>
    { noa1 with
      _blockTargetLoc := none
      _blockPlacementLoc := none
      calls := noa1.calls ++ [Call.highlightBlock false none none none] }

/-- The method `noCollisionsAt(loc)`.  With `loc` null the `aabb` constructor reads a
component of `null`, which throws. -/
def noCollisionsAt {W : Type} (c : Collab W) (noa : Engine W) (loc : Option Cell) :
    Except JSError Bool :=
  match loc with
  | none => Except.error JSError.typeError
  | some p =>
    let pbb := noa.playerBody.aabb
    let newbb := aabb p.toPoint ⟨1, 1, 1⟩
    Except.ok (!(c.intersects pbb newbb))

/-! ## Internals -/

/-- The function `handleFireEvent(noa, type)`. -/
def handleFireEvent {W : Type} (c : Collab W) (noa : Engine W) (type : Nat) :
    Except JSError (Engine W) :=
  match noa._blockTargetLoc with
  | none => Except.ok noa
  | some loc =>
    let noa1 :=
      if type = 1 then
        { noa with
          world := c.setBlock noa.world 0 loc.x loc.y loc.z
          calls := noa.calls ++ [Call.setBlock 0 loc.x loc.y loc.z] }
      else noa
    let noa2 :=
      if type = 2 then
        { noa1 with
          _placeBlockID := c.getBlock noa1.world loc.x loc.y loc.z
          calls := noa1.calls ++ [Call.getBlock loc.x loc.y loc.z] }
      else noa1
    if type = 3 then
      let id := noa2._placeBlockID
      let place := noa2._blockPlacementLoc
      match noCollisionsAt c noa2 place with
      | Except.error e => Except.error e
      | Except.ok false => Except.ok noa2
      | Except.ok true =>
        match place with
        | none => Except.error JSError.typeError
        | some p =>
          Except.ok { noa2 with
            world := c.setBlock noa2.world id p.x p.y p.z
            calls := noa2.calls ++ [Call.setBlock id p.x p.y p.z] }
    else Except.ok noa2

/-- The function `getTickTime(noa)`; `now` is the value of `new Date()` in milliseconds.
An unset `_lastTick` counts as `0`. -/
def getTickTime {W : Type} (now : Int) (noa : Engine W) : Int × Engine W :=
  let last : Int := match noa._lastTick with
    | some l => l
    | none => 0
  let d := now
  let dt := d - last
  let dt := if dt > 100 then 100 else dt
  (dt, { noa with _lastTick := some d })

/-- The function `checkForPointerlock(noa)`. -/
def checkForPointerlock {W : Type} (noa : Engine W) : Engine W :=
  let turn := noa.pointerLock || noa.inputsState.fire
  if !turn then { noa with inputsState := { noa.inputsState with dx := 0, dy := 0 } }
  else noa

/-! ## Engine API -/

/-- The method `tick()`, run when the clock reads `now`. -/
def tick {W : Type} (c : Collab W) (now : Int) (noa : Engine W) : Engine W :=
  let (dt, noa) := getTickTime now noa
  let noa := checkForPointerlock noa
  let noa := { noa with
    world := c.worldTick noa.world noa.playerBody dt
    calls := noa.calls ++ [Call.worldTick dt] }
  let moved := c.controlsTick noa.inputsState noa.playerBody noa.cameraRotation dt
  let noa := { noa with
    playerBody := moved.1
    cameraRotation := moved.2
    calls := noa.calls ++ [Call.controlsTick dt] }
  let noa := { noa with
    playerBody := c.physicsTick noa.world noa.playerBody dt
    calls := noa.calls ++ [Call.physicsTick dt] }
  let noa := doBlockTargeting c noa
  { noa with
    inputsState := c.inputsTick noa.inputsState dt
    calls := noa.calls ++ [Call.inputsTick dt] }

/-! ## Construction -/

/-- The default `defineBlock` calls of the constructor: dirt, grass, stone, then the loop
`for (i = 4; i < 30; i++) defineBlock(i, i + 1)`. -/
def defineDefaultBlocks {W : Type} (noa : Engine W) : Engine W :=
  let noa := defineBlock noa 1 (MatEntry.scalar 1)
  let noa := defineBlock noa 2 (MatEntry.faces [3, 3, 2, 1, 3, 3])
  let noa := defineBlock noa 3 (MatEntry.scalar 4)
  (List.range' 4 26).foldl (fun n i => defineBlock n i (MatEntry.scalar (i + 1))) noa

/-- The default `defineMaterial` calls of the constructor; `rnd k` is the value of the
`k`-th call of `Math.random()`. -/
def defineDefaultMaterials {W : Type} (opts : Opts) (rnd : Nat → ℚ) (noa : Engine W) :
    Engine W :=
  let noa := defineMaterial opts noa 1 ⟨1, 1, 1⟩ (some "dirt")
  let noa := defineMaterial opts noa 2 ⟨1, 1, 1⟩ (some "grass")
  let noa := defineMaterial opts noa 3 ⟨1, 1, 1⟩ (some "grass_dirt")
  let noa := defineMaterial opts noa 4 ⟨1, 1, 1⟩ (some "cobblestone")
  (List.range' 5 25).foldl
    (fun n i =>
      defineMaterial opts n i ⟨rnd (3 * (i - 5)), rnd (3 * (i - 5) + 1), rnd (3 * (i - 5) + 2)⟩
        none)
    noa

/-- The constructor `Engine(opts)`.  The world made by `createWorld`, the body returned by
`physics.addBody`, the camera rotation and the input state belong to collaborators and
are arguments.  `_blockTargetLoc`, `_blockPlacementLoc` and `_lastTick` are not assigned
by the constructor: they start `undefined`, here `none`. -/
def mkEngine {W : Type} (opts : Opts) (world : W) (body : PlayerBody) (crot : Rotation)
    (inputs : InputState) (lock : Bool) (rnd : Nat → ℚ) : Engine W :=
  let noa : Engine W :=
    { world := world
      playerBody := body
      cameraRotation := crot
      inputsState := inputs
      pointerLock := lock
      blockTestDistance :=
        match opts.blockTestDistance with
        | some d => if d = 0 then 10 else d
        | none => 10
      _placeBlockID := 2
      _blockTargetLoc := none
      _blockPlacementLoc := none
      _lastTick := none
      blockMaterialMap := [MatEntry.null]
      materialColors := [ColorEntry.null]
      materialTextures := [TexEntry.null]
      calls := [] }
  defineDefaultMaterials opts rnd (defineDefaultBlocks noa)

/-- The engine states that occur: the constructed engine, then any number of targeting
updates, handled fire events, and other steps (collaborator ticks, registry calls, `pick`),
none of which assigns the two cached cells. -/
inductive Reachable {W : Type} (c : Collab W) : Engine W → Prop where
  | init (opts : Opts) (world : W) (body : PlayerBody) (crot : Rotation)
      (inputs : InputState) (lock : Bool) (rnd : Nat → ℚ) :
      Reachable c (mkEngine opts world body crot inputs lock rnd)
  | targeting (noa : Engine W) : Reachable c noa → Reachable c (doBlockTargeting c noa)
  | fire (noa noa' : Engine W) (type : Nat) :
      Reachable c noa → handleFireEvent c noa type = Except.ok noa' → Reachable c noa'
  | other (noa noa' : Engine W) :
      Reachable c noa → noa'._blockTargetLoc = noa._blockTargetLoc →
      noa'._blockPlacementLoc = noa._blockPlacementLoc → Reachable c noa'

/-- The get-after-set law of a world store: `getBlock` returns the id last written to a
cell, and a write leaves every other cell as it was. -/
structure GetAfterSet {W : Type} (c : Collab W) : Prop where
  same : ∀ (w : W) (v : Nat) (x y z : Int), c.getBlock (c.setBlock w v x y z) x y z = v
  other : ∀ (w : W) (v : Nat) (x y z x' y' z' : Int), ¬ (x' = x ∧ y' = y ∧ z' = z) →
    c.getBlock (c.setBlock w v x y z) x' y' z' = c.getBlock w x' y' z'

/-- The camera ray of `noa` strikes the solid cell `cell` on its `+x` face, and `res` is
the ray query's report of that strike.
* World: `cell` holds a block, and the cell in front of its `+x` face, through which the
  ray arrives, is air.
* Ray: the camera vector points towards `-x`, and the ray from the camera position meets
  the face plane `x = cell.x + 1` at a point `q` of the face.
* Report: the normal is `(1,0,0)`; the reported position is less than one cell from `q`
  in every coordinate and lies over the face; the reported block is the block stored in
  the cell that contains the reported position. -/
def StrikesPlusXFace {W : Type} (c : Collab W) (noa : Engine W) (cell : Cell)
    (res : PickResult) : Prop :=
  c.getBlock noa.world cell.x cell.y cell.z ≠ 0 ∧
  c.getBlock noa.world (cell.x + 1) cell.y cell.z = 0 ∧
  (getCameraVector c noa).x < 0 ∧
  (∃ (t : ℚ) (q : Point), 0 ≤ t ∧
    q.x = (getCameraPosition noa).x + t * (getCameraVector c noa).x ∧
    q.y = (getCameraPosition noa).y + t * (getCameraVector c noa).y ∧
    q.z = (getCameraPosition noa).z + t * (getCameraVector c noa).z ∧
    q.x = (cell.x : ℚ) + 1 ∧
    (cell.y : ℚ) ≤ q.y ∧ q.y < (cell.y : ℚ) + 1 ∧
    (cell.z : ℚ) ≤ q.z ∧ q.z < (cell.z : ℚ) + 1 ∧
    |res.position.x - q.x| < 1 ∧ |res.position.y - q.y| < 1 ∧ |res.position.z - q.z| < 1) ∧
  ((cell.y : ℚ) ≤ res.position.y ∧ res.position.y < (cell.y : ℚ) + 1 ∧
    (cell.z : ℚ) ≤ res.position.z ∧ res.position.z < (cell.z : ℚ) + 1) ∧
  res.normal = ⟨1, 0, 0⟩ ∧
  res.block = c.getBlock noa.world ⌊res.position.x⌋ ⌊res.position.y⌋ ⌊res.position.z⌋

/-- A face normal as the ray query is meant to report it: one component `1` or `-1`,
the other two `0`. -/
def IsAxisUnit (n : Cell) : Prop :=
  ((n.x = 1 ∨ n.x = -1) ∧ n.y = 0 ∧ n.z = 0) ∨
  (n.x = 0 ∧ (n.y = 1 ∨ n.y = -1) ∧ n.z = 0) ∨
  (n.x = 0 ∧ n.y = 0 ∧ (n.z = 1 ∨ n.z = -1))

/-- Cell `p` is face-adjacent to cell `t`: it differs from `t` by exactly 1 in exactly
one coordinate and agrees in the other two. -/
def FaceAdjacent (t p : Cell) : Prop :=
  (|p.x - t.x| = 1 ∧ p.y = t.y ∧ p.z = t.z) ∨
  (p.x = t.x ∧ |p.y - t.y| = 1 ∧ p.z = t.z) ∨
  (p.x = t.x ∧ p.y = t.y ∧ |p.z - t.z| = 1)

/-- The ray query reports an axis unit normal with every hit. -/
def AxisNormals {W : Type} (c : Collab W) : Prop :=
  ∀ (w : W) (pos vec : Point) (dist : ℚ),
    (c.raycast w pos vec dist).block ≠ 0 → IsAxisUnit (c.raycast w pos vec dist).hitNorm

/-- The input collaborator's `tick` does not create look-delta: accumulators that are
zero before it are zero after it (clearing them, as it is meant to, is one such `tick`). -/
def KeepsZeroLook {W : Type} (c : Collab W) : Prop :=
  ∀ (st : InputState) (dt : Int), st.dx = 0 → st.dy = 0 →
    (c.inputsTick st dt).dx = 0 ∧ (c.inputsTick st dt).dy = 0

/-- Whether a recorded call is a `world.setBlock`. -/
def Call.isSetBlock : Call → Bool
  | Call.setBlock _ _ _ _ => true
  | _ => false

/-- The `world.setBlock` calls among the recorded calls. -/
def setBlockCalls (l : List Call) : List Call := l.filter Call.isSetBlock

/-! ## Concrete collaborators, for evaluating the engine on examples -/

/-- A world store kept as a list of writes, newest first; an unwritten cell is air. -/
abbrev GridWorld := List (Cell × Nat)

/-- Reading a `GridWorld`: the newest write to the cell, else `0`. -/
def GridWorld.get (w : GridWorld) (x y z : Int) : Nat :=
  match w.find? (fun e => decide (e.1 = (⟨x, y, z⟩ : Cell))) with
  | some e => e.2
  | none => 0

/-- Writing a `GridWorld`. -/
def GridWorld.put (w : GridWorld) (id : Nat) (x y z : Int) : GridWorld :=
  (⟨x, y, z⟩, id) :: w

/-- The overlap test of two boxes with non-negative extents: they intersect unless they
are separated along an axis (touching boxes intersect). -/
def boxIntersects (a b : AABB) : Bool :=
  !(decide (b.base.x > a.base.x + a.vec.x) || decide (b.base.y > a.base.y + a.vec.y) ||
    decide (b.base.z > a.base.z + a.vec.z) || decide (b.base.x + b.vec.x < a.base.x) ||
    decide (b.base.y + b.vec.y < a.base.y) || decide (b.base.z + b.vec.z < a.base.z))

/-- Collaborators over a `GridWorld` whose ray query always answers `r`; the rotations
leave the vector as it is, the controls add the look-delta to the camera rotation, the
input `tick` clears the look-delta, the world and physics ticks change nothing. -/
def gridCollab (r : RayHit) : Collab GridWorld where
  getBlock := GridWorld.get
  setBlock := GridWorld.put
  raycast := fun _ _ _ _ => r
  intersects := boxIntersects
  rotateX := fun v _ _ => v
  rotateY := fun v _ _ => v
  worldTick := fun w _ _ => w
  controlsTick := fun st b r _ => (b, ⟨r.x + st.dy, r.y + st.dx⟩)
  physicsTick := fun _ b _ => b
  inputsTick := fun st _ => { st with dx := 0, dy := 0 }

/-- As `gridCollab r`, with the camera turned to look along `dir`. -/
def lookCollab (dir : Point) (r : RayHit) : Collab GridWorld :=
  { gridCollab r with rotateY := fun _ _ _ => dir }

/-- The box the constructor hands to `physics.addBody`: `new aabb([0,30,0], [2/3,3/2,2/3])`. -/
def pbox : AABB := aabb ⟨0, 30, 0⟩ ⟨2 / 3, 3 / 2, 2 / 3⟩

/-- A freshly constructed engine over `w` with the default options. -/
def freshEngine (w : GridWorld) : Engine GridWorld :=
  mkEngine ⟨none, "textures/"⟩ w ⟨pbox⟩ ⟨0, 0⟩ ⟨0, 0, false⟩ false (fun _ => 1 / 2)

/-- The engine `freshEngine w` with the two cached cells set to `t` and `p`. -/
def aimedEngine (w : GridWorld) (t p : Option Cell) : Engine GridWorld :=
  { freshEngine w with _blockTargetLoc := t, _blockPlacementLoc := p }

/-- A ray query result that is a miss. -/
def missHit : RayHit := ⟨0, ⟨0, 0, 0⟩, ⟨0, 0, 0⟩⟩

/-! ## Theorems -/


/-! ### The constructed engine, field by field -/

section Construction
variable {W : Type} (opts : Opts) (world : W) (body : PlayerBody) (crot : Rotation)
  (inputs : InputState) (lock : Bool) (rnd : Nat → ℚ)

@[simp] theorem mkEngine_world :
    (mkEngine opts world body crot inputs lock rnd).world = world := rfl

@[simp] theorem mkEngine_playerBody :
    (mkEngine opts world body crot inputs lock rnd).playerBody = body := rfl

@[simp] theorem mkEngine_placeBlockID :
    (mkEngine opts world body crot inputs lock rnd)._placeBlockID = 2 := rfl

@[simp] theorem mkEngine_blockTargetLoc :
    (mkEngine opts world body crot inputs lock rnd)._blockTargetLoc = none := rfl

@[simp] theorem mkEngine_blockPlacementLoc :
    (mkEngine opts world body crot inputs lock rnd)._blockPlacementLoc = none := rfl

@[simp] theorem mkEngine_calls :
    (mkEngine opts world body crot inputs lock rnd).calls = [] := rfl

end Construction

/-! ### Targeting -/

/-- The ray query made by `pick()` without arguments: from the camera position, along
the camera vector, up to `blockTestDistance`; the call is recorded and the engine is
otherwise left as it was. -/
theorem pick_default {W : Type} (c : Collab W) (noa : Engine W) :
    pick c noa none none none =
      (let r := c.raycast noa.world (getCameraPosition noa) (getCameraVector c noa)
          noa.blockTestDistance
       if r.block ≠ 0 then some { block := r.block, position := r.hitPos, normal := r.hitNorm }
       else none,
       { noa with calls := noa.calls ++
          [Call.traceRay (getCameraPosition noa) (getCameraVector c noa)
            noa.blockTestDistance] }) := by
  simp only [pick]
  split <;> rfl

/-- The state left by `doBlockTargeting` when `pick()` returns the hit `res`. -/
theorem doBlockTargeting_of_hit {W : Type} (c : Collab W) (noa : Engine W)
    (res : PickResult) (h : (pick c noa none none none).1 = some res) :
    (doBlockTargeting c noa)._blockTargetLoc
      = some ⟨⌊res.position.x⌋, ⌊res.position.y⌋, ⌊res.position.z⌋⟩ ∧
    (doBlockTargeting c noa)._blockPlacementLoc
      = some ⟨⌊res.position.x⌋ + res.normal.x, ⌊res.position.y⌋ + res.normal.y,
          ⌊res.position.z⌋ + res.normal.z⟩ ∧
    (doBlockTargeting c noa).calls = (pick c noa none none none).2.calls ++
      [Call.highlightBlock true (some ⌊res.position.x⌋) (some ⌊res.position.y⌋)
        (some ⌊res.position.z⌋)] := by
  unfold doBlockTargeting
  rcases hp : pick c noa none none none with ⟨r, n1⟩
  rw [hp] at h
  simp only at h
  subst h
  exact ⟨rfl, rfl, rfl⟩

/-- The state left by `doBlockTargeting` when `pick()` returns `null`. -/
theorem doBlockTargeting_of_miss {W : Type} (c : Collab W) (noa : Engine W)
    (h : (pick c noa none none none).1 = none) :
    (doBlockTargeting c noa)._blockTargetLoc = none ∧
    (doBlockTargeting c noa)._blockPlacementLoc = none ∧
    (doBlockTargeting c noa).calls = (pick c noa none none none).2.calls ++
      [Call.highlightBlock false none none none] := by
  unfold doBlockTargeting
  rcases hp : pick c noa none none none with ⟨r, n1⟩
  rw [hp] at h
  simp only at h
  subst h
  exact ⟨rfl, rfl, rfl⟩

/-- C2 (`doBlockTargeting` caches the ray query's result).  When `pick()` returns a hit
with position `(px,py,pz)` and normal `(nx,ny,nz)`, afterwards the target cell is
`(⌊px⌋,⌊py⌋,⌊pz⌋)`, the placement cell is the target cell plus the normal, and the last
call made is `highlightBlock(true, target)`; when `pick()` returns `null`, afterwards
both cells are none and the last call made is `highlightBlock(false, undefined × 3)`.
In both cases the only calls made are the ray query and that highlight request. -/
theorem doBlockTargeting_caches {W : Type} (c : Collab W) (noa : Engine W) :
    (∀ res : PickResult, (pick c noa none none none).1 = some res →
      (doBlockTargeting c noa)._blockTargetLoc
        = some ⟨⌊res.position.x⌋, ⌊res.position.y⌋, ⌊res.position.z⌋⟩ ∧
      (doBlockTargeting c noa)._blockPlacementLoc
        = some ⟨⌊res.position.x⌋ + res.normal.x, ⌊res.position.y⌋ + res.normal.y,
            ⌊res.position.z⌋ + res.normal.z⟩ ∧
      (doBlockTargeting c noa).calls = (pick c noa none none none).2.calls ++
        [Call.highlightBlock true (some ⌊res.position.x⌋) (some ⌊res.position.y⌋)
          (some ⌊res.position.z⌋)]) ∧
    ((pick c noa none none none).1 = none →
      (doBlockTargeting c noa)._blockTargetLoc = none ∧
      (doBlockTargeting c noa)._blockPlacementLoc = none ∧
      (doBlockTargeting c noa).calls = (pick c noa none none none).2.calls ++
        [Call.highlightBlock false none none none]) ∧
    (pick c noa none none none).2.calls = noa.calls ++
      [Call.traceRay (getCameraPosition noa) (getCameraVector c noa) noa.blockTestDistance] := by
  refine ⟨?_, ?_, ?_⟩
  · intro res h
    exact doBlockTargeting_of_hit c noa res h
  · intro h
    exact doBlockTargeting_of_miss c noa h
  · rw [pick_default]

/-- C2 evaluated on a hit at `(7/2, -1/2, 2)` with normal `(0,1,0)` (target `(3,-1,2)`,
placement `(3,0,2)`) and on a miss. -/
theorem doBlockTargeting_caches_witness :
    ((doBlockTargeting (gridCollab ⟨3, ⟨7 / 2, -1 / 2, 2⟩, ⟨0, 1, 0⟩⟩)
        (freshEngine []))._blockTargetLoc = some ⟨3, -1, 2⟩ ∧
     (doBlockTargeting (gridCollab ⟨3, ⟨7 / 2, -1 / 2, 2⟩, ⟨0, 1, 0⟩⟩)
        (freshEngine []))._blockPlacementLoc = some ⟨3, 0, 2⟩) ∧
    ((doBlockTargeting (gridCollab missHit)
        (aimedEngine [] (some ⟨0, 0, 0⟩) (some ⟨1, 0, 0⟩)))._blockTargetLoc = none ∧
     (doBlockTargeting (gridCollab missHit)
        (aimedEngine [] (some ⟨0, 0, 0⟩) (some ⟨1, 0, 0⟩)))._blockPlacementLoc = none) := by
  have h1 := (doBlockTargeting_caches (gridCollab ⟨3, ⟨7 / 2, -1 / 2, 2⟩, ⟨0, 1, 0⟩⟩)
    (freshEngine [])).1 ⟨3, ⟨7 / 2, -1 / 2, 2⟩, ⟨0, 1, 0⟩⟩
    (by simp [pick_default, gridCollab])
  have h2 := (doBlockTargeting_caches (gridCollab missHit)
    (aimedEngine [] (some ⟨0, 0, 0⟩) (some ⟨1, 0, 0⟩))).2.1
    (by simp [pick_default, gridCollab, missHit])
  have f1 : ⌊(7 / 2 : ℚ)⌋ = 3 := by rw [Int.floor_eq_iff]; norm_num
  have f2 : ⌊(-1 / 2 : ℚ)⌋ = -1 := by rw [Int.floor_eq_iff]; norm_num
  have f3 : ⌊(2 : ℚ)⌋ = 2 := by rw [Int.floor_eq_iff]; norm_num
  simp only [f1, f2, f3] at h1
  exact ⟨⟨h1.1, by simpa using h1.2.1⟩, h2.1, h2.2.1⟩

/-- A hit returned by `pick()` carries a non-zero block id. -/
theorem pick_some_block_ne_zero {W : Type} (c : Collab W) (noa : Engine W)
    (res : PickResult) (h : (pick c noa none none none).1 = some res) : res.block ≠ 0 := by
  rw [pick_default] at h
  simp only at h
  split at h
  · rename_i hb
    cases h
    exact hb
  · cases h

/-- C3 (targeting round-trip).  For every cell `(x,y,z)` and every camera ray that
strikes that cell on its `+x` face, reported by the ray query with normal `(1,0,0)`, a
position less than one cell from the intersection point and the block of the cell that
contains that position: after `doBlockTargeting` the target cell is `(x,y,z)` and the
placement cell is `(x+1,y,z)`.  The reported position cannot floor to the cell in front
of the face, because that cell is air and the reported block is not. -/
theorem targeting_round_trip {W : Type} (c : Collab W) (noa : Engine W) (cell : Cell)
    (res : PickResult) (hpick : (pick c noa none none none).1 = some res)
    (hstrike : StrikesPlusXFace c noa cell res) :
    (doBlockTargeting c noa)._blockTargetLoc = some cell ∧
    (doBlockTargeting c noa)._blockPlacementLoc = some ⟨cell.x + 1, cell.y, cell.z⟩ := by
  obtain ⟨_, hfront, _, ⟨t, q, _, _, _, _, hqx, _, _, _, _, hnx, _, _⟩,
    ⟨hy0, hy1, hz0, hz1⟩, hn, hblock⟩ := hstrike
  have hb : res.block ≠ 0 := pick_some_block_ne_zero c noa res hpick
  have fy : ⌊res.position.y⌋ = cell.y := Int.floor_eq_iff.mpr ⟨hy0, hy1⟩
  have fz : ⌊res.position.z⌋ = cell.z := Int.floor_eq_iff.mpr ⟨hz0, hz1⟩
  rw [hqx, abs_lt] at hnx
  have hlo : (cell.x : ℚ) < res.position.x := by linarith [hnx.1]
  have hhi : res.position.x < (cell.x : ℚ) + 2 := by linarith [hnx.2]
  have fx : ⌊res.position.x⌋ = cell.x := by
    by_cases hlt : res.position.x < (cell.x : ℚ) + 1
    · exact Int.floor_eq_iff.mpr ⟨le_of_lt hlo, hlt⟩
    · exfalso
      have hfl : ⌊res.position.x⌋ = cell.x + 1 := by
        apply Int.floor_eq_iff.mpr
        push_cast
        constructor
        · linarith [not_lt.mp hlt]
        · linarith
      rw [hfl, fy, fz, hfront] at hblock
      exact hb hblock
  have h := doBlockTargeting_of_hit c noa res hpick
  rw [fx, fy, fz, hn] at h
  exact ⟨h.1, by simpa using h.2.1⟩

/-- C3 evaluated: block 3 at cell `(-3,31,0)`, air in front of it; the camera at
`(1/3, 63/2, 1/3)` looks along `(-1,0,0)` and its ray meets the `+x` face of the cell at
`(-2, 63/2, 1/3)`; the ray query reports the position `(-201/100, 63/2, 1/3)`, just
inside the cell.  The target cell is `(-3,31,0)` and the placement cell `(-2,31,0)`. -/
theorem targeting_round_trip_witness :
    (doBlockTargeting (lookCollab ⟨-1, 0, 0⟩ ⟨3, ⟨-201 / 100, 63 / 2, 1 / 3⟩, ⟨1, 0, 0⟩⟩)
      (freshEngine [(⟨-3, 31, 0⟩, 3)]))._blockTargetLoc = some ⟨-3, 31, 0⟩ ∧
    (doBlockTargeting (lookCollab ⟨-1, 0, 0⟩ ⟨3, ⟨-201 / 100, 63 / 2, 1 / 3⟩, ⟨1, 0, 0⟩⟩)
      (freshEngine [(⟨-3, 31, 0⟩, 3)]))._blockPlacementLoc = some ⟨-3 + 1, 31, 0⟩ := by
  have f1 : ⌊(-201 / 100 : ℚ)⌋ = -3 := by rw [Int.floor_eq_iff]; norm_num
  have f2 : ⌊(63 / 2 : ℚ)⌋ = 31 := by rw [Int.floor_eq_iff]; norm_num
  have f3 : ⌊(1 / 3 : ℚ)⌋ = 0 := by rw [Int.floor_eq_iff]; norm_num
  have hvec : getCameraVector (lookCollab ⟨-1, 0, 0⟩
      ⟨3, ⟨-201 / 100, 63 / 2, 1 / 3⟩, ⟨1, 0, 0⟩⟩) (freshEngine [(⟨-3, 31, 0⟩, 3)])
      = ⟨-1, 0, 0⟩ := rfl
  have hpos : getCameraPosition (freshEngine [(⟨-3, 31, 0⟩, 3)])
      = ⟨0 + 1 / 3, 30 + 3 / 2, 0 + 1 / 3⟩ := rfl
  refine targeting_round_trip
    (lookCollab ⟨-1, 0, 0⟩ ⟨3, ⟨-201 / 100, 63 / 2, 1 / 3⟩, ⟨1, 0, 0⟩⟩)
    (freshEngine [(⟨-3, 31, 0⟩, 3)]) ⟨-3, 31, 0⟩
    ⟨3, ⟨-201 / 100, 63 / 2, 1 / 3⟩, ⟨1, 0, 0⟩⟩
    (by simp [pick_default, lookCollab, gridCollab]) ?_
  refine ⟨by decide, by decide, ?_, ⟨7 / 3, ⟨-2, 63 / 2, 1 / 3⟩, ?_⟩, ?_, rfl, ?_⟩
  · rw [hvec]
    norm_num
  · rw [hvec, hpos]
    norm_num [abs_lt]
  · norm_num
  · show (3 : Nat) = GridWorld.get [(⟨-3, 31, 0⟩, 3)] ⌊(-201 / 100 : ℚ)⌋ ⌊(63 / 2 : ℚ)⌋
      ⌊(1 / 3 : ℚ)⌋
    rw [f1, f2, f3]
    decide

/-! ### Fire events -/

/-- Without a cached target cell every fire event returns at once. -/
theorem handleFireEvent_no_target {W : Type} (c : Collab W) (noa : Engine W) (type : Nat)
    (ht : noa._blockTargetLoc = none) : handleFireEvent c noa type = Except.ok noa := by
  simp [handleFireEvent, ht]

/-- A fire event (type 1) with target cell `t` writes air at `t`. -/
theorem handleFireEvent_destroy {W : Type} (c : Collab W) (noa : Engine W) (t : Cell)
    (ht : noa._blockTargetLoc = some t) :
    handleFireEvent c noa 1 = Except.ok { noa with
      world := c.setBlock noa.world 0 t.x t.y t.z
      calls := noa.calls ++ [Call.setBlock 0 t.x t.y t.z] } := by
  simp [handleFireEvent, ht]

/-- A mid-fire event (type 2) with target cell `t` reads the block at `t` into
`_placeBlockID`. -/
theorem handleFireEvent_pick {W : Type} (c : Collab W) (noa : Engine W) (t : Cell)
    (ht : noa._blockTargetLoc = some t) :
    handleFireEvent c noa 2 = Except.ok { noa with
      _placeBlockID := c.getBlock noa.world t.x t.y t.z
      calls := noa.calls ++ [Call.getBlock t.x t.y t.z] } := by
  simp [handleFireEvent, ht]

/-- An alt-fire event (type 3) with both cells cached: nothing happens when the unit
cube at `p` intersects the player's box, else `_placeBlockID` is written at `p`. -/
theorem handleFireEvent_place {W : Type} (c : Collab W) (noa : Engine W) (t p : Cell)
    (ht : noa._blockTargetLoc = some t) (hp : noa._blockPlacementLoc = some p) :
    handleFireEvent c noa 3 = Except.ok
      (if c.intersects noa.playerBody.aabb (aabb p.toPoint ⟨1, 1, 1⟩) = true then noa
       else { noa with
        world := c.setBlock noa.world noa._placeBlockID p.x p.y p.z
        calls := noa.calls ++ [Call.setBlock noa._placeBlockID p.x p.y p.z] }) := by
  cases hi : c.intersects noa.playerBody.aabb (aabb p.toPoint ⟨1, 1, 1⟩) <;>
    simp [handleFireEvent, ht, hp, noCollisionsAt, hi]

/-- A handled fire event leaves both cached cells as they were. -/
theorem handleFireEvent_cache {W : Type} (c : Collab W) (noa noa' : Engine W) (type : Nat)
    (h : handleFireEvent c noa type = Except.ok noa') :
    noa'._blockTargetLoc = noa._blockTargetLoc ∧
    noa'._blockPlacementLoc = noa._blockPlacementLoc := by
  unfold handleFireEvent at h
  split at h
  · cases h
    exact ⟨rfl, rfl⟩
  · simp only at h
    split at h
    · split at h
      · cases h
      · cases h
        refine ⟨?_, ?_⟩ <;> (split <;> split <;> rfl)
      · split at h
        · cases h
        · cases h
          refine ⟨?_, ?_⟩ <;> (split <;> split <;> rfl)
    · cases h
      refine ⟨?_, ?_⟩ <;> (split <;> split <;> rfl)

/-- In every reachable state the target cell is none exactly when the placement cell is. -/
theorem reachable_cache_none_iff {W : Type} (c : Collab W) (noa : Engine W)
    (hr : Reachable c noa) :
    noa._blockTargetLoc = none ↔ noa._blockPlacementLoc = none := by
  induction hr with
  | init opts world body crot inputs lock rnd => simp
  | targeting noa _ _ =>
    cases hp : (pick c noa none none none).1 with
    | none =>
      have h := doBlockTargeting_of_miss c noa hp
      simp [h.1, h.2.1]
    | some res =>
      have h := doBlockTargeting_of_hit c noa res hp
      simp [h.1, h.2.1]
  | fire noa noa' type _ hf ih =>
    have h := handleFireEvent_cache c noa noa' type hf
    rw [h.1, h.2]
    exact ih
  | other noa noa' _ h1 h2 ih =>
    rw [h1, h2]
    exact ih

/-- The list-of-writes world obeys the get-after-set law. -/
theorem gridCollab_getAfterSet (r : RayHit) : GetAfterSet (gridCollab r) where
  same := by
    intro w v x y z
    simp [gridCollab, GridWorld.get, GridWorld.put]
  other := by
    intro w v x y z x' y' z' hne
    have : ¬ ((⟨x, y, z⟩ : Cell) = ⟨x', y', z'⟩) := by
      intro h
      injection h with h1 h2 h3
      exact hne ⟨h1.symm, h2.symm, h3.symm⟩
    simp [gridCollab, GridWorld.get, GridWorld.put, List.find?_cons, this]

/-- C1 (collision gating of place).  With both cached cells set, an alt-fire event (type 3)
returns normally; `noCollisionsAt(p)` is the negation of the intersection test of the
player's box with the unit cube at the placement cell `p`; when they intersect the event
makes no collaborator call at all (so no `world.setBlock`) and when they do not it makes
exactly one call, `world.setBlock(HeldBlockID, p[0], p[1], p[2])`. -/
theorem place_collision_gating {W : Type} (c : Collab W) (noa : Engine W) (t p : Cell)
    (ht : noa._blockTargetLoc = some t) (hp : noa._blockPlacementLoc = some p) :
    noCollisionsAt c noa (some p)
        = Except.ok (!(c.intersects noa.playerBody.aabb (aabb p.toPoint ⟨1, 1, 1⟩))) ∧
    (c.intersects noa.playerBody.aabb (aabb p.toPoint ⟨1, 1, 1⟩) = true →
      ∃ noa', handleFireEvent c noa 3 = Except.ok noa' ∧ noa'.calls = noa.calls) ∧
    (c.intersects noa.playerBody.aabb (aabb p.toPoint ⟨1, 1, 1⟩) = false →
      ∃ noa', handleFireEvent c noa 3 = Except.ok noa' ∧
        noa'.calls = noa.calls ++ [Call.setBlock noa._placeBlockID p.x p.y p.z]) := by
  refine ⟨rfl, ?_, ?_⟩
  · intro hi
    refine ⟨noa, ?_, rfl⟩
    simp [handleFireEvent, ht, hp, noCollisionsAt, hi]
  · intro hi
    refine ⟨{ noa with
      world := c.setBlock noa.world noa._placeBlockID p.x p.y p.z
      calls := noa.calls ++ [Call.setBlock noa._placeBlockID p.x p.y p.z] }, ?_, rfl⟩
    simp [handleFireEvent, ht, hp, noCollisionsAt, hi]

/-- C1 evaluated: the player's box is `[0,2/3] × [30,63/2] × [0,2/3]`; the cube at
`(0,30,0)` intersects it and the event records no call, the cube at `(5,30,0)` does not
and the event records the single call `setBlock(2, 5, 30, 0)`. -/
theorem place_collision_gating_witness :
    (∃ noa', handleFireEvent (gridCollab missHit)
        (aimedEngine [] (some ⟨0, 29, 0⟩) (some ⟨0, 30, 0⟩)) 3 = Except.ok noa' ∧
      noa'.calls = []) ∧
    (∃ noa', handleFireEvent (gridCollab missHit)
        (aimedEngine [] (some ⟨5, 29, 0⟩) (some ⟨5, 30, 0⟩)) 3 = Except.ok noa' ∧
      noa'.calls = [Call.setBlock 2 5 30 0]) :=
  ⟨(place_collision_gating (gridCollab missHit)
      (aimedEngine [] (some ⟨0, 29, 0⟩) (some ⟨0, 30, 0⟩)) ⟨0, 29, 0⟩ ⟨0, 30, 0⟩ rfl rfl).2.1
      (by norm_num [gridCollab, boxIntersects, aimedEngine, freshEngine, pbox, aabb,
        Cell.toPoint]),
   (place_collision_gating (gridCollab missHit)
      (aimedEngine [] (some ⟨5, 29, 0⟩) (some ⟨5, 30, 0⟩)) ⟨5, 29, 0⟩ ⟨5, 30, 0⟩ rfl rfl).2.2
      (by norm_num [gridCollab, boxIntersects, aimedEngine, freshEngine, pbox, aabb,
        Cell.toPoint])⟩

/-- C4 (destroy).  A fire event (type 1) always returns normally.  With no cached target
cell it changes nothing, so it makes no `world.setBlock` call; with the cached target
cell `t` it makes exactly one collaborator call, `world.setBlock(0, t[0], t[1], t[2])`,
and changes nothing but the world. -/
theorem destroy_event {W : Type} (c : Collab W) (noa : Engine W) :
    (noa._blockTargetLoc = none → handleFireEvent c noa 1 = Except.ok noa) ∧
    (∀ t : Cell, noa._blockTargetLoc = some t →
      ∃ noa', handleFireEvent c noa 1 = Except.ok noa' ∧
        noa'.calls = noa.calls ++ [Call.setBlock 0 t.x t.y t.z] ∧
        noa'.world = c.setBlock noa.world 0 t.x t.y t.z ∧
        noa'._placeBlockID = noa._placeBlockID) := by
  constructor
  · intro ht
    exact handleFireEvent_no_target c noa 1 ht
  · intro t ht
    exact ⟨_, handleFireEvent_destroy c noa t ht, rfl, rfl, rfl⟩

/-- C4 evaluated: with no target the engine is returned as it is; with target `(4,1,-2)`
the recorded calls are exactly `[setBlock(0, 4, 1, -2)]`. -/
theorem destroy_event_witness :
    handleFireEvent (gridCollab missHit) (freshEngine []) 1 = Except.ok (freshEngine []) ∧
    (∃ noa', handleFireEvent (gridCollab missHit)
        (aimedEngine [] (some ⟨4, 1, -2⟩) (some ⟨4, 2, -2⟩)) 1 = Except.ok noa' ∧
      noa'.calls = [Call.setBlock 0 4 1 (-2)]) := by
  refine ⟨(destroy_event (gridCollab missHit) (freshEngine [])).1 rfl, ?_⟩
  obtain ⟨noa', h1, h2, _⟩ := (destroy_event (gridCollab missHit)
    (aimedEngine [] (some ⟨4, 1, -2⟩) (some ⟨4, 2, -2⟩))).2 ⟨4, 1, -2⟩ rfl
  exact ⟨noa', h1, h2⟩

/-- C5 (pick action).  A mid-fire event (type 2) always returns normally.  With no cached
target cell it changes nothing, so `_placeBlockID` keeps its value; with the cached
target cell `t` it sets `_placeBlockID` to `world.getBlock(t[0], t[1], t[2])`, by one
`getBlock` call, and leaves the world as it was. -/
theorem pick_event {W : Type} (c : Collab W) (noa : Engine W) :
    (noa._blockTargetLoc = none →
      ∃ noa', handleFireEvent c noa 2 = Except.ok noa' ∧
        noa'._placeBlockID = noa._placeBlockID) ∧
    (∀ t : Cell, noa._blockTargetLoc = some t →
      ∃ noa', handleFireEvent c noa 2 = Except.ok noa' ∧
        noa'._placeBlockID = c.getBlock noa.world t.x t.y t.z ∧
        noa'.calls = noa.calls ++ [Call.getBlock t.x t.y t.z] ∧
        noa'.world = noa.world) := by
  constructor
  · intro ht
    exact ⟨noa, handleFireEvent_no_target c noa 2 ht, rfl⟩
  · intro t ht
    exact ⟨_, handleFireEvent_pick c noa t ht, rfl, rfl, rfl⟩

/-- C5 evaluated: in a world holding block 7 at `(4,1,-2)`, a mid-fire event with that
target turns the held block from 2 into 7; with no target the held block stays 2. -/
theorem pick_event_witness :
    (∃ noa', handleFireEvent (gridCollab missHit) (freshEngine [(⟨4, 1, -2⟩, 7)]) 2
        = Except.ok noa' ∧ noa'._placeBlockID = 2) ∧
    (∃ noa', handleFireEvent (gridCollab missHit)
        (aimedEngine [(⟨4, 1, -2⟩, 7)] (some ⟨4, 1, -2⟩) (some ⟨4, 2, -2⟩)) 2
        = Except.ok noa' ∧ noa'._placeBlockID = 7) := by
  refine ⟨(pick_event (gridCollab missHit) (freshEngine [(⟨4, 1, -2⟩, 7)])).1 rfl, ?_⟩
  obtain ⟨noa', h1, h2, _⟩ := (pick_event (gridCollab missHit)
    (aimedEngine [(⟨4, 1, -2⟩, 7)] (some ⟨4, 1, -2⟩) (some ⟨4, 2, -2⟩))).2 ⟨4, 1, -2⟩ rfl
  refine ⟨noa', h1, ?_⟩
  rw [h2]
  decide

/-- C6 (place with no placement cell).  In every reachable engine state whose cached
placement cell is none, an alt-fire event (type 3) returns normally with the engine
unchanged: no call is recorded (so no `world.setBlock`), `_placeBlockID` keeps its value
and no error is raised. -/
theorem place_without_placement {W : Type} (c : Collab W) (noa : Engine W)
    (hr : Reachable c noa) (hp : noa._blockPlacementLoc = none) :
    handleFireEvent c noa 3 = Except.ok noa :=
  handleFireEvent_no_target c noa 3 ((reachable_cache_none_iff c noa hr).mpr hp)

/-- C6 evaluated on the engine left by a targeting update that missed. -/
theorem place_without_placement_witness :
    handleFireEvent (gridCollab missHit)
        (doBlockTargeting (gridCollab missHit) (freshEngine [])) 3
      = Except.ok (doBlockTargeting (gridCollab missHit) (freshEngine [])) :=
  place_without_placement (gridCollab missHit)
    (doBlockTargeting (gridCollab missHit) (freshEngine []))
    (Reachable.targeting _ (Reachable.init _ _ _ _ _ _ _))
    (doBlockTargeting_of_miss (gridCollab missHit) (freshEngine [])
      (by simp [pick_default, gridCollab, missHit])).2.1

/-- C7 (pick-then-place).  Over a world obeying the get-after-set law, with block `b`
stored at the cached target cell and a cached placement cell `p` whose unit cube does not
intersect the player's box, a mid-fire event followed by an alt-fire event both return
normally, and afterwards `_placeBlockID = b` and `world.getBlock(p) = b`. -/
theorem pick_then_place {W : Type} (c : Collab W) (hlaw : GetAfterSet c) (noa : Engine W)
    (t p : Cell) (b : Nat)
    (ht : noa._blockTargetLoc = some t) (hp : noa._blockPlacementLoc = some p)
    (hb : c.getBlock noa.world t.x t.y t.z = b)
    (hfree : c.intersects noa.playerBody.aabb (aabb p.toPoint ⟨1, 1, 1⟩) = false) :
    ∃ noa1 noa2, handleFireEvent c noa 2 = Except.ok noa1 ∧
      handleFireEvent c noa1 3 = Except.ok noa2 ∧
      noa1._placeBlockID = b ∧ noa2._placeBlockID = b ∧
      c.getBlock noa2.world p.x p.y p.z = b := by
  subst hb
  have h1 := handleFireEvent_pick c noa t ht
  have h2 := handleFireEvent_place c { noa with
      _placeBlockID := c.getBlock noa.world t.x t.y t.z
      calls := noa.calls ++ [Call.getBlock t.x t.y t.z] } t p ht hp
  simp only [hfree, Bool.false_eq_true, if_false] at h2
  exact ⟨_, _, h1, h2, rfl, rfl, hlaw.same _ _ _ _ _⟩

/-- C7 evaluated on the specification's instance: block 3 at the target `(0,30,5)`,
placement cell `(0,30,4)` clear of the player's box; afterwards the held block is 3 and
the block at `(0,30,4)` is 3. -/
theorem pick_then_place_witness :
    ∃ noa1 noa2,
      handleFireEvent (gridCollab missHit)
        (aimedEngine [(⟨0, 30, 5⟩, 3)] (some ⟨0, 30, 5⟩) (some ⟨0, 30, 4⟩)) 2
        = Except.ok noa1 ∧
      handleFireEvent (gridCollab missHit) noa1 3 = Except.ok noa2 ∧
      noa1._placeBlockID = 3 ∧ noa2._placeBlockID = 3 ∧
      (gridCollab missHit).getBlock noa2.world 0 30 4 = 3 :=
  pick_then_place (gridCollab missHit) (gridCollab_getAfterSet missHit)
    (aimedEngine [(⟨0, 30, 5⟩, 3)] (some ⟨0, 30, 5⟩) (some ⟨0, 30, 4⟩))
    ⟨0, 30, 5⟩ ⟨0, 30, 4⟩ 3 rfl rfl (by decide)
    (by norm_num [gridCollab, boxIntersects, aimedEngine, freshEngine, pbox, aabb,
      Cell.toPoint])

/-- C8 (idempotence of destroy).  Over a world obeying the get-after-set law, two fire
events (type 1) in a row both return normally and keep the cached target cell, and the
world after the second reads the same at every cell as the world after the first.  With
a cached target cell `t`, the first leaves air at `t` and the second makes the single
call `setBlock(0, t)`, writing air over air. -/
theorem destroy_idempotent {W : Type} (c : Collab W) (hlaw : GetAfterSet c)
    (noa : Engine W) :
    ∃ noa1 noa2, handleFireEvent c noa 1 = Except.ok noa1 ∧
      handleFireEvent c noa1 1 = Except.ok noa2 ∧
      noa1._blockTargetLoc = noa._blockTargetLoc ∧
      (∀ x y z : Int, c.getBlock noa2.world x y z = c.getBlock noa1.world x y z) ∧
      (∀ t : Cell, noa._blockTargetLoc = some t →
        c.getBlock noa1.world t.x t.y t.z = 0 ∧
        noa2.calls = noa1.calls ++ [Call.setBlock 0 t.x t.y t.z]) := by
  cases ht : noa._blockTargetLoc with
  | none =>
    refine ⟨noa, noa, handleFireEvent_no_target c noa 1 ht,
      handleFireEvent_no_target c noa 1 ht, ht, fun _ _ _ => rfl, ?_⟩
    intro t h
    cases h
  | some t =>
    refine ⟨_, _, handleFireEvent_destroy c noa t ht, handleFireEvent_destroy c _ t ht,
      ht, ?_, ?_⟩
    · intro x y z
      show c.getBlock (c.setBlock (c.setBlock noa.world 0 t.x t.y t.z) 0 t.x t.y t.z) x y z
        = c.getBlock (c.setBlock noa.world 0 t.x t.y t.z) x y z
      by_cases h : x = t.x ∧ y = t.y ∧ z = t.z
      · obtain ⟨rfl, rfl, rfl⟩ := h
        rw [hlaw.same, hlaw.same]
      · rw [hlaw.other _ _ _ _ _ _ _ _ h]
    · intro t' h
      cases h
      exact ⟨hlaw.same _ _ _ _ _, rfl⟩

/-- C8 evaluated: in a world holding block 7 at `(4,1,-2)`, two destroy events with that
target leave air there, and the world after the second reads as after the first. -/
theorem destroy_idempotent_witness :
    ∃ noa1 noa2,
      handleFireEvent (gridCollab missHit)
        (aimedEngine [(⟨4, 1, -2⟩, 7)] (some ⟨4, 1, -2⟩) (some ⟨4, 2, -2⟩)) 1
        = Except.ok noa1 ∧
      handleFireEvent (gridCollab missHit) noa1 1 = Except.ok noa2 ∧
      (gridCollab missHit).getBlock noa1.world 4 1 (-2) = 0 ∧
      (∀ x y z : Int, (gridCollab missHit).getBlock noa2.world x y z
        = (gridCollab missHit).getBlock noa1.world x y z) := by
  obtain ⟨noa1, noa2, h1, h2, _, h4, h5⟩ := destroy_idempotent (gridCollab missHit)
    (gridCollab_getAfterSet missHit)
    (aimedEngine [(⟨4, 1, -2⟩, 7)] (some ⟨4, 1, -2⟩) (some ⟨4, 2, -2⟩))
  exact ⟨noa1, noa2, h1, h2, (h5 ⟨4, 1, -2⟩ rfl).1, h4⟩

/-! ### Registry -/

/-- Reading back the index just written. -/
theorem arrGet_arrSet_same {α : Type} (u : α) (a : List α) (i : Nat) (v : α) :
    arrGet u (arrSet u a i v) i = v := by
  unfold arrGet arrSet
  split
  · rename_i h
    simp [List.getD_eq_getElem?_getD, List.getElem?_set, h]
  · rename_i h
    have hlen : (a ++ List.replicate (i - a.length) u).length = i := by
      simp only [List.length_append, List.length_replicate]
      omega
    rw [List.getD_eq_getElem?_getD, List.getElem?_append_right (by omega), hlen]
    simp

/-- A write leaves every other index reading as before. -/
theorem arrGet_arrSet_other {α : Type} (u : α) (a : List α) (i j : Nat) (v : α)
    (hne : j ≠ i) : arrGet u (arrSet u a i v) j = arrGet u a j := by
  unfold arrGet arrSet
  split
  · simp [List.getD_eq_getElem?_getD, List.getElem?_set, Ne.symm hne]
  · rename_i h
    simp only [List.getD_eq_getElem?_getD]
    by_cases h1 : j < a.length
    · rw [List.append_assoc, List.getElem?_append_left h1]
    · have h2 : a[j]? = none := List.getElem?_eq_none (by omega)
      rw [h2, List.append_assoc, List.getElem?_append_right (by omega)]
      by_cases h3 : j < i
      · rw [List.getElem?_append_left (by simp; omega)]
        simp only [List.getElem?_replicate]
        split <;> rfl
      · rw [List.getElem?_eq_none (by simp; omega)]

/-- Registering other ids afterwards leaves the entry of `id` as it is. -/
theorem blockMaterialMap_defineBlock_later {W : Type} (later : List (Nat × MatEntry))
    (noa : Engine W) (id : Nat) (hl : ∀ e ∈ later, e.1 ≠ id) :
    arrGet MatEntry.undefined
      (later.foldl (fun n e => defineBlock n e.1 e.2) noa).blockMaterialMap id
      = arrGet MatEntry.undefined noa.blockMaterialMap id := by
  induction later generalizing noa with
  | nil => rfl
  | cons e rest ih =>
    simp only [List.foldl_cons]
    rw [ih _ (fun e' he' => hl e' (List.mem_cons_of_mem _ he'))]
    simp only [defineBlock]
    exact arrGet_arrSet_other _ _ _ _ _ (Ne.symm (hl e (List.mem_cons_self _ _)))

/-- C9 (scalar registration).  After `defineBlock(id, m)` with a single material id `m`,
and after any further `defineBlock` calls for other ids, `blockToMaterial(id, d)` returns
`m` for every face direction `d` (in particular for `d` in 0..5). -/
theorem blockToMaterial_scalar {W : Type} (noa : Engine W) (id m : Nat)
    (later : List (Nat × MatEntry)) (hl : ∀ e ∈ later, e.1 ≠ id) (d : Nat) :
    blockToMaterial
      (later.foldl (fun n e => defineBlock n e.1 e.2) (defineBlock noa id (MatEntry.scalar m)))
      id d = Except.ok (MatEntry.scalar m) := by
  unfold blockToMaterial
  rw [blockMaterialMap_defineBlock_later later _ id hl]
  simp only [defineBlock]
  rw [arrGet_arrSet_same]

/-- C9 evaluated: block 40 registered with material 9 on a fresh engine, then blocks 41
and 2 registered; face 4 of block 40 resolves to material 9. -/
theorem blockToMaterial_scalar_witness :
    blockToMaterial
      ([(41, MatEntry.scalar 1), (2, MatEntry.faces [1, 1, 1, 1, 1, 1])].foldl
        (fun n e => defineBlock n e.1 e.2)
        (defineBlock (freshEngine []) 40 (MatEntry.scalar 9)))
      40 4 = Except.ok (MatEntry.scalar 9) :=
  blockToMaterial_scalar (freshEngine []) 40 9
    [(41, MatEntry.scalar 1), (2, MatEntry.faces [1, 1, 1, 1, 1, 1])] (by decide) 4

/-- C10 (per-face registration).  After `defineBlock(id, L)` with a 6-element list `L`,
and after any further `defineBlock` calls for other ids, `blockToMaterial(id, d)` returns
`L[d]` for every face direction `d` in 0..5. -/
theorem blockToMaterial_faces {W : Type} (noa : Engine W) (id : Nat) (L : List Nat)
    (later : List (Nat × MatEntry)) (hl : ∀ e ∈ later, e.1 ≠ id)
    (hL : L.length = 6) (d : Nat) (hd : d < 6) :
    blockToMaterial
      (later.foldl (fun n e => defineBlock n e.1 e.2) (defineBlock noa id (MatEntry.faces L)))
      id d = Except.ok (MatEntry.scalar (L.get ⟨d, by omega⟩)) := by
  unfold blockToMaterial
  rw [blockMaterialMap_defineBlock_later later _ id hl]
  simp only [defineBlock]
  rw [arrGet_arrSet_same]
  have hget : L[d]? = some (L.get ⟨d, by omega⟩) := by
    rw [List.getElem?_eq_getElem (by omega)]
    rfl
  simp only [hL, List.get?_eq_getElem?, hget]
  rfl

/-- C10 evaluated: block 40 registered with `[11,12,13,14,15,16]`; its faces
`+x, -x, +y, -y, +z, -z` resolve to 11, 12, 13, 14, 15, 16. -/
theorem blockToMaterial_faces_witness :
    (blockToMaterial (defineBlock (freshEngine []) 40 (MatEntry.faces [11, 12, 13, 14, 15, 16]))
      40 0 = Except.ok (MatEntry.scalar 11) ∧
     blockToMaterial (defineBlock (freshEngine []) 40 (MatEntry.faces [11, 12, 13, 14, 15, 16]))
      40 3 = Except.ok (MatEntry.scalar 14)) ∧
    blockToMaterial (defineBlock (freshEngine []) 40 (MatEntry.faces [11, 12, 13, 14, 15, 16]))
      40 5 = Except.ok (MatEntry.scalar 16) :=
  ⟨⟨blockToMaterial_faces (freshEngine []) 40 [11, 12, 13, 14, 15, 16] [] (by simp) rfl 0
      (by decide),
    blockToMaterial_faces (freshEngine []) 40 [11, 12, 13, 14, 15, 16] [] (by simp) rfl 3
      (by decide)⟩,
   blockToMaterial_faces (freshEngine []) 40 [11, 12, 13, 14, 15, 16] [] (by simp) rfl 5
      (by decide)⟩

set_option maxRecDepth 100000 in
/-- The block table left by the constructor: `null` for air, then blocks 1..29. -/
theorem mkEngine_blockMaterialMap {W : Type} (opts : Opts) (world : W) (body : PlayerBody)
    (crot : Rotation) (inputs : InputState) (lock : Bool) (rnd : Nat → ℚ) :
    (mkEngine opts world body crot inputs lock rnd).blockMaterialMap =
      MatEntry.null :: MatEntry.scalar 1 :: MatEntry.faces [3, 3, 2, 1, 3, 3] ::
        MatEntry.scalar 4 :: (List.range' 4 26).map (fun i => MatEntry.scalar (i + 1)) := by
  simp [mkEngine, defineDefaultBlocks, defineDefaultMaterials, defineBlock, defineMaterial,
    arrSet, List.range', List.foldl]

set_option maxRecDepth 100000 in
/-- The colour table left by the constructor: `null` for air, then materials 1..29. -/
theorem mkEngine_materialColors {W : Type} (opts : Opts) (world : W) (body : PlayerBody)
    (crot : Rotation) (inputs : InputState) (lock : Bool) (rnd : Nat → ℚ) :
    (mkEngine opts world body crot inputs lock rnd).materialColors =
      ColorEntry.null :: ColorEntry.rgb ⟨1, 1, 1⟩ :: ColorEntry.rgb ⟨1, 1, 1⟩ ::
        ColorEntry.rgb ⟨1, 1, 1⟩ :: ColorEntry.rgb ⟨1, 1, 1⟩ ::
        (List.range' 5 25).map (fun i =>
          ColorEntry.rgb ⟨rnd (3 * (i - 5)), rnd (3 * (i - 5) + 1), rnd (3 * (i - 5) + 2)⟩) := by
  simp [mkEngine, defineDefaultBlocks, defineDefaultMaterials, defineBlock, defineMaterial,
    arrSet, List.range', List.foldl]

/-- C11 (lookup error).  When `blockMaterialMap[id]` holds no mapping, being `undefined`
(never written) or `null` (the air entry), `blockToMaterial(id, d)` raises an error for
every `d` and returns nothing.  On the constructed engine that is the case for id 0 and
for every id from 30 on. -/
theorem blockToMaterial_unregistered {W : Type} (noa : Engine W) (id d : Nat) :
    (arrGet MatEntry.undefined noa.blockMaterialMap id = MatEntry.undefined ∨
      arrGet MatEntry.undefined noa.blockMaterialMap id = MatEntry.null →
        blockToMaterial noa id d = Except.error JSError.typeError) ∧
    (∀ (opts : Opts) (world : W) (body : PlayerBody) (crot : Rotation) (inputs : InputState)
        (lock : Bool) (rnd : Nat → ℚ), id = 0 ∨ 30 ≤ id →
        blockToMaterial (mkEngine opts world body crot inputs lock rnd) id d
          = Except.error JSError.typeError) := by
  have key : ∀ n : Engine W,
      (arrGet MatEntry.undefined n.blockMaterialMap id = MatEntry.undefined ∨
        arrGet MatEntry.undefined n.blockMaterialMap id = MatEntry.null) →
      blockToMaterial n id d = Except.error JSError.typeError := by
    intro n h
    unfold blockToMaterial
    rcases h with h | h <;> rw [h]
  refine ⟨key noa, ?_⟩
  intro opts world body crot inputs lock rnd hid
  apply key
  rw [mkEngine_blockMaterialMap]
  rcases hid with h | h
  · right
    subst h
    rfl
  · left
    unfold arrGet
    rw [List.getD_eq_getElem?_getD, List.getElem?_eq_none]
    · rfl
    · simp
      omega

/-- C11 evaluated on a fresh engine: air (id 0) and the unregistered id 30 raise an
error, for face 0 and face 5. -/
theorem blockToMaterial_unregistered_witness :
    blockToMaterial (freshEngine []) 0 5 = Except.error JSError.typeError ∧
    blockToMaterial (freshEngine []) 30 0 = Except.error JSError.typeError :=
  ⟨(blockToMaterial_unregistered (freshEngine []) 0 5).1 (Or.inr rfl),
   (blockToMaterial_unregistered (freshEngine []) 30 0).1 (Or.inl rfl)⟩

/-! ### The frame loop -/

/-- The request `doBlockTargeting` sends to `rendering.highlightBlock` from engine `noa`. -/
theorem doBlockTargeting_eq {W : Type} (c : Collab W) (noa : Engine W) :
    doBlockTargeting c noa =
      if (c.raycast noa.world (getCameraPosition noa) (getCameraVector c noa)
          noa.blockTestDistance).block ≠ 0 then
        { noa with
          _blockTargetLoc := some
            ⟨⌊(c.raycast noa.world (getCameraPosition noa) (getCameraVector c noa)
                noa.blockTestDistance).hitPos.x⌋,
             ⌊(c.raycast noa.world (getCameraPosition noa) (getCameraVector c noa)
                noa.blockTestDistance).hitPos.y⌋,
             ⌊(c.raycast noa.world (getCameraPosition noa) (getCameraVector c noa)
                noa.blockTestDistance).hitPos.z⌋⟩
          _blockPlacementLoc := some
            ⟨⌊(c.raycast noa.world (getCameraPosition noa) (getCameraVector c noa)
                noa.blockTestDistance).hitPos.x⌋ +
              (c.raycast noa.world (getCameraPosition noa) (getCameraVector c noa)
                noa.blockTestDistance).hitNorm.x,
             ⌊(c.raycast noa.world (getCameraPosition noa) (getCameraVector c noa)
                noa.blockTestDistance).hitPos.y⌋ +
              (c.raycast noa.world (getCameraPosition noa) (getCameraVector c noa)
                noa.blockTestDistance).hitNorm.y,
             ⌊(c.raycast noa.world (getCameraPosition noa) (getCameraVector c noa)
                noa.blockTestDistance).hitPos.z⌋ +
              (c.raycast noa.world (getCameraPosition noa) (getCameraVector c noa)
                noa.blockTestDistance).hitNorm.z⟩
          calls := noa.calls ++
            [Call.traceRay (getCameraPosition noa) (getCameraVector c noa)
                noa.blockTestDistance,
              Call.highlightBlock true
                (some ⌊(c.raycast noa.world (getCameraPosition noa) (getCameraVector c noa)
                  noa.blockTestDistance).hitPos.x⌋)
                (some ⌊(c.raycast noa.world (getCameraPosition noa) (getCameraVector c noa)
                  noa.blockTestDistance).hitPos.y⌋)
                (some ⌊(c.raycast noa.world (getCameraPosition noa) (getCameraVector c noa)
                  noa.blockTestDistance).hitPos.z⌋)] }
      else
        { noa with
          _blockTargetLoc := none
          _blockPlacementLoc := none
          calls := noa.calls ++
            [Call.traceRay (getCameraPosition noa) (getCameraVector c noa)
                noa.blockTestDistance,
              Call.highlightBlock false none none none] } := by
  unfold doBlockTargeting
  rw [pick_default]
  by_cases h : (c.raycast noa.world (getCameraPosition noa) (getCameraVector c noa)
      noa.blockTestDistance).block ≠ 0
  · rw [if_pos h, if_pos h]
    simp only [List.append_assoc, List.singleton_append]
  · rw [if_neg h, if_neg h]
    simp only [List.append_assoc, List.singleton_append]

/-- What `doBlockTargeting` leaves alone, and the two calls it makes. -/
theorem doBlockTargeting_frame {W : Type} (c : Collab W) (noa : Engine W) :
    (doBlockTargeting c noa).world = noa.world ∧
    (doBlockTargeting c noa).playerBody = noa.playerBody ∧
    (doBlockTargeting c noa).cameraRotation = noa.cameraRotation ∧
    (doBlockTargeting c noa).inputsState = noa.inputsState ∧
    (doBlockTargeting c noa).blockTestDistance = noa.blockTestDistance ∧
    ∃ (act : Bool) (x y z : Option Int), (doBlockTargeting c noa).calls = noa.calls ++
      [Call.traceRay (getCameraPosition noa) (getCameraVector c noa) noa.blockTestDistance,
        Call.highlightBlock act x y z] := by
  rw [doBlockTargeting_eq]
  split
  · exact ⟨rfl, rfl, rfl, rfl, rfl, _, _, _, _, rfl⟩
  · exact ⟨rfl, rfl, rfl, rfl, rfl, _, _, _, _, rfl⟩

/-- What `checkForPointerlock` leaves alone. -/
theorem checkForPointerlock_frame {W : Type} (n : Engine W) :
    (checkForPointerlock n).world = n.world ∧
    (checkForPointerlock n).playerBody = n.playerBody ∧
    (checkForPointerlock n).cameraRotation = n.cameraRotation ∧
    (checkForPointerlock n).calls = n.calls ∧
    (checkForPointerlock n).blockTestDistance = n.blockTestDistance ∧
    (checkForPointerlock n)._blockTargetLoc = n._blockTargetLoc ∧
    (checkForPointerlock n)._blockPlacementLoc = n._blockPlacementLoc := by
  unfold checkForPointerlock
  simp only
  split <;> exact ⟨rfl, rfl, rfl, rfl, rfl, rfl, rfl⟩

/-- The method `tick()` split at its targeting update: `n5` is the engine as
`doBlockTargeting` finds it, after the world, controls and physics ticks. -/
theorem tick_split {W : Type} (c : Collab W) (now : Int) (noa : Engine W) :
    ∃ n5 : Engine W,
      n5.world = c.worldTick noa.world noa.playerBody (getTickTime now noa).1 ∧
      n5.cameraRotation = (c.controlsTick (checkForPointerlock noa).inputsState
        noa.playerBody noa.cameraRotation (getTickTime now noa).1).2 ∧
      n5.playerBody = c.physicsTick
        (c.worldTick noa.world noa.playerBody (getTickTime now noa).1)
        (c.controlsTick (checkForPointerlock noa).inputsState noa.playerBody
          noa.cameraRotation (getTickTime now noa).1).1 (getTickTime now noa).1 ∧
      n5.inputsState = (checkForPointerlock noa).inputsState ∧
      n5.calls = noa.calls ++ [Call.worldTick (getTickTime now noa).1,
        Call.controlsTick (getTickTime now noa).1, Call.physicsTick (getTickTime now noa).1] ∧
      n5._blockTargetLoc = noa._blockTargetLoc ∧
      n5._blockPlacementLoc = noa._blockPlacementLoc ∧
      tick c now noa = { doBlockTargeting c n5 with
        inputsState := c.inputsTick (doBlockTargeting c n5).inputsState (getTickTime now noa).1
        calls := (doBlockTargeting c n5).calls ++ [Call.inputsTick (getTickTime now noa).1] } := by
  obtain ⟨g1, g2, g3, g4, _, g6, g7⟩ := checkForPointerlock_frame (getTickTime now noa).2
  have g1' : (checkForPointerlock (getTickTime now noa).2).world = noa.world := g1
  have g2' : (checkForPointerlock (getTickTime now noa).2).playerBody = noa.playerBody := g2
  have g3' : (checkForPointerlock (getTickTime now noa).2).cameraRotation
      = noa.cameraRotation := g3
  have g4' : (checkForPointerlock (getTickTime now noa).2).calls = noa.calls := g4
  have hin : (checkForPointerlock (getTickTime now noa).2).inputsState
      = (checkForPointerlock noa).inputsState := by
    unfold checkForPointerlock getTickTime
    simp only
    split <;> rfl
  refine ⟨{ checkForPointerlock (getTickTime now noa).2 with
      world := c.worldTick (checkForPointerlock (getTickTime now noa).2).world
        (checkForPointerlock (getTickTime now noa).2).playerBody (getTickTime now noa).1
      playerBody := c.physicsTick
        (c.worldTick (checkForPointerlock (getTickTime now noa).2).world
          (checkForPointerlock (getTickTime now noa).2).playerBody (getTickTime now noa).1)
        (c.controlsTick (checkForPointerlock (getTickTime now noa).2).inputsState
          (checkForPointerlock (getTickTime now noa).2).playerBody
          (checkForPointerlock (getTickTime now noa).2).cameraRotation
          (getTickTime now noa).1).1 (getTickTime now noa).1
      cameraRotation := (c.controlsTick
          (checkForPointerlock (getTickTime now noa).2).inputsState
          (checkForPointerlock (getTickTime now noa).2).playerBody
          (checkForPointerlock (getTickTime now noa).2).cameraRotation
          (getTickTime now noa).1).2
      calls := (checkForPointerlock (getTickTime now noa).2).calls ++
        [Call.worldTick (getTickTime now noa).1] ++ [Call.controlsTick (getTickTime now noa).1]
        ++ [Call.physicsTick (getTickTime now noa).1] }, ?_, ?_, ?_, hin, ?_, g6, g7, rfl⟩
  · show c.worldTick _ _ _ = _
    rw [g1', g2']
  · show (c.controlsTick _ _ _ _).2 = _
    rw [g2', g3', hin]
  · show c.physicsTick _ _ _ = _
    rw [g1', g2', g3', hin]
  · show _ ++ _ ++ _ ++ _ = _
    rw [g4']
    simp

/-- One `tick()`: with `dt` the clamped time step, the collaborators are called in the
order world, controls, physics, ray query and highlight (the targeting update), inputs;
the ray is cast from the camera pose and in the world that the earlier calls produced;
the input state is what `inputs.tick` makes of the state left by the turn gate. -/
theorem tick_trace {W : Type} (c : Collab W) (now : Int) (noa : Engine W) :
    (tick c now noa).world = c.worldTick noa.world noa.playerBody (getTickTime now noa).1 ∧
    (tick c now noa).cameraRotation
      = (c.controlsTick (checkForPointerlock noa).inputsState noa.playerBody
          noa.cameraRotation (getTickTime now noa).1).2 ∧
    (tick c now noa).playerBody
      = c.physicsTick (c.worldTick noa.world noa.playerBody (getTickTime now noa).1)
          (c.controlsTick (checkForPointerlock noa).inputsState noa.playerBody
            noa.cameraRotation (getTickTime now noa).1).1 (getTickTime now noa).1 ∧
    (tick c now noa).inputsState
      = c.inputsTick (checkForPointerlock noa).inputsState (getTickTime now noa).1 ∧
    ∃ (act : Bool) (x y z : Option Int), (tick c now noa).calls = noa.calls ++
      [Call.worldTick (getTickTime now noa).1, Call.controlsTick (getTickTime now noa).1,
        Call.physicsTick (getTickTime now noa).1,
        Call.traceRay (getCameraPosition (tick c now noa))
          (getCameraVector c (tick c now noa)) (tick c now noa).blockTestDistance,
        Call.highlightBlock act x y z,
        Call.inputsTick (getTickTime now noa).1] := by
  obtain ⟨n5, h1, h2, h3, h4, h5, _, _, ht⟩ := tick_split c now noa
  obtain ⟨f1, f2, f3, f4, f5, act, x, y, z, f6⟩ := doBlockTargeting_frame c n5
  have hpos : getCameraPosition (tick c now noa) = getCameraPosition n5 := by
    rw [ht]
    unfold getCameraPosition
    simp only [f2]
  have hvec : getCameraVector c (tick c now noa) = getCameraVector c n5 := by
    rw [ht]
    unfold getCameraVector
    simp only [f3]
  have hdist : (tick c now noa).blockTestDistance = n5.blockTestDistance := by
    rw [ht]
    exact f5
  refine ⟨?_, ?_, ?_, ?_, act, x, y, z, ?_⟩
  · rw [ht]
    exact f1.trans h1
  · rw [ht]
    exact f3.trans h2
  · rw [ht]
    exact f2.trans h3
  · rw [ht]
    show c.inputsTick (doBlockTargeting c n5).inputsState _ = _
    rw [f4, h4]
  · rw [hpos, hvec, hdist, ht]
    show (doBlockTargeting c n5).calls ++ _ = _
    rw [f6, h5]
    simp

/-- The time step computed by `getTickTime`: the elapsed time, cut off at 100. -/
theorem getTickTime_dt {W : Type} (now : Int) (noa : Engine W) :
    (getTickTime now noa).1 =
      if now - noa._lastTick.getD 0 > 100 then 100 else now - noa._lastTick.getD 0 := by
  unfold getTickTime
  cases noa._lastTick <;> rfl

/-- The clearing input `tick` of `gridCollab` keeps zero look-delta zero. -/
theorem gridCollab_keepsZeroLook (r : RayHit) : KeepsZeroLook (gridCollab r) := by
  intro st dt _ _
  exact ⟨rfl, rfl⟩

/-- C12 (dt clamp).  In a tick at clock reading `now` with `now - _lastTick > 100` (an
unset `_lastTick` counted as 0), the time step is exactly 100: the recorded calls are
`world.tick(100)`, `controls.tick(100)`, `physics.tick(100)`, the targeting update and
`inputs.tick(100)`, and the world, body and camera after the tick are what the
collaborators compute for the step 100, not for the elapsed time. -/
theorem tick_dt_clamp {W : Type} (c : Collab W) (now : Int) (noa : Engine W)
    (hgt : now - noa._lastTick.getD 0 > 100) :
    (getTickTime now noa).1 = 100 ∧
    (tick c now noa).world = c.worldTick noa.world noa.playerBody 100 ∧
    (tick c now noa).cameraRotation
      = (c.controlsTick (checkForPointerlock noa).inputsState noa.playerBody
          noa.cameraRotation 100).2 ∧
    (tick c now noa).playerBody
      = c.physicsTick (c.worldTick noa.world noa.playerBody 100)
          (c.controlsTick (checkForPointerlock noa).inputsState noa.playerBody
            noa.cameraRotation 100).1 100 ∧
    ∃ (pos vec : Point) (dist : ℚ) (act : Bool) (x y z : Option Int),
      (tick c now noa).calls = noa.calls ++
        [Call.worldTick 100, Call.controlsTick 100, Call.physicsTick 100,
          Call.traceRay pos vec dist, Call.highlightBlock act x y z, Call.inputsTick 100] := by
  have hdt : (getTickTime now noa).1 = 100 := by
    rw [getTickTime_dt, if_pos hgt]
  obtain ⟨h1, h2, h3, _, act, x, y, z, h5⟩ := tick_trace c now noa
  rw [hdt] at h1 h2 h3 h5
  exact ⟨hdt, h1, h2, h3, _, _, _, act, x, y, z, h5⟩

/-- C12 evaluated: the first tick of a fresh engine at clock reading 1700000000000 (no
`_lastTick` yet), and a tick 250 ms after the previous one, both run with the step 100. -/
theorem tick_dt_clamp_witness :
    (getTickTime 1700000000000 (freshEngine [])).1 = 100 ∧
    (getTickTime 1250 { freshEngine [] with _lastTick := some 1000 }).1 = 100 :=
  ⟨(tick_dt_clamp (gridCollab missHit) 1700000000000 (freshEngine []) (by decide)).1,
   (tick_dt_clamp (gridCollab missHit) 1250 { freshEngine [] with _lastTick := some 1000 }
      (by decide)).1⟩

/-- C13 (fixed tick order).  One `tick()` makes exactly these collaborator calls, in this
order and with one and the same `dt`: `world.tick(dt)`, `controls.tick(dt)`,
`physics.tick(dt)`, the two calls of `doBlockTargeting()` (ray query, highlight request),
`inputs.tick(dt)`.  The ray query uses the camera pose that the controls and physics
ticks left, and `inputs.tick` is the last to act on the input state. -/
theorem tick_order {W : Type} (c : Collab W) (now : Int) (noa : Engine W) :
    ∃ (dt : Int) (act : Bool) (x y z : Option Int),
      dt = (getTickTime now noa).1 ∧
      (tick c now noa).calls = noa.calls ++
        [Call.worldTick dt, Call.controlsTick dt, Call.physicsTick dt,
          Call.traceRay (getCameraPosition (tick c now noa))
            (getCameraVector c (tick c now noa)) (tick c now noa).blockTestDistance,
          Call.highlightBlock act x y z,
          Call.inputsTick dt] ∧
      (tick c now noa).playerBody
        = c.physicsTick (c.worldTick noa.world noa.playerBody dt)
            (c.controlsTick (checkForPointerlock noa).inputsState noa.playerBody
              noa.cameraRotation dt).1 dt ∧
      (tick c now noa).inputsState = c.inputsTick (checkForPointerlock noa).inputsState dt := by
  obtain ⟨_, _, h3, h4, act, x, y, z, h5⟩ := tick_trace c now noa
  exact ⟨_, act, x, y, z, rfl, h5, h3, h4⟩

/-- C14 (turn gate).  When pointer capture is inactive and the primary-fire button is not
held, and `inputs.tick` does not create look-delta, then whatever `dx` and `dy` were
before: `checkForPointerlock` sets them to zero, `controls.tick` computes the camera
rotation from a zero look-delta, and after `tick()` both are zero. -/
theorem turn_gate {W : Type} (c : Collab W) (hz : KeepsZeroLook c) (now : Int)
    (noa : Engine W) (hl : noa.pointerLock = false) (hf : noa.inputsState.fire = false) :
    (checkForPointerlock noa).inputsState = { noa.inputsState with dx := 0, dy := 0 } ∧
    (tick c now noa).cameraRotation
      = (c.controlsTick { noa.inputsState with dx := 0, dy := 0 } noa.playerBody
          noa.cameraRotation (getTickTime now noa).1).2 ∧
    (tick c now noa).inputsState.dx = 0 ∧ (tick c now noa).inputsState.dy = 0 := by
  have hg : (checkForPointerlock noa).inputsState
      = { noa.inputsState with dx := 0, dy := 0 } := by
    unfold checkForPointerlock
    simp [hl, hf]
  obtain ⟨_, h2, _, h4, _⟩ := tick_trace c now noa
  rw [hg] at h2 h4
  refine ⟨hg, h2, ?_, ?_⟩
  · rw [h4]
    exact (hz _ _ rfl rfl).1
  · rw [h4]
    exact (hz _ _ rfl rfl).2

/-- C14 evaluated: with look-delta `(5, -3)`, no pointer capture and no button held, the
look-delta is zero after a tick and the camera rotation `(0, 0)` has not turned. -/
theorem turn_gate_witness :
    (tick (gridCollab missHit) 1250
      { freshEngine [] with inputsState := ⟨5, -3, false⟩ }).inputsState.dx = 0 ∧
    (tick (gridCollab missHit) 1250
      { freshEngine [] with inputsState := ⟨5, -3, false⟩ }).inputsState.dy = 0 :=
  (turn_gate (gridCollab missHit) (gridCollab_keepsZeroLook missHit) 1250
    { freshEngine [] with inputsState := ⟨5, -3, false⟩ } rfl rfl).2.2

/-- C13 evaluated on the first tick of a fresh engine whose ray query misses. -/
theorem tick_order_witness :
    ∃ (dt : Int) (act : Bool) (x y z : Option Int),
      dt = (getTickTime 1250 (freshEngine [])).1 ∧
      (tick (gridCollab missHit) 1250 (freshEngine [])).calls = (freshEngine []).calls ++
        [Call.worldTick dt, Call.controlsTick dt, Call.physicsTick dt,
          Call.traceRay (getCameraPosition (tick (gridCollab missHit) 1250 (freshEngine [])))
            (getCameraVector (gridCollab missHit)
              (tick (gridCollab missHit) 1250 (freshEngine [])))
            (tick (gridCollab missHit) 1250 (freshEngine [])).blockTestDistance,
          Call.highlightBlock act x y z,
          Call.inputsTick dt] := by
  obtain ⟨dt, act, x, y, z, h1, h2, _⟩ := tick_order (gridCollab missHit) 1250 (freshEngine [])
  exact ⟨dt, act, x, y, z, h1, h2⟩

/-! ### Registry, continued -/

/-- Writing an index twice is writing it once with the later value. -/
theorem arrSet_arrSet {α : Type} (u : α) (a : List α) (i : Nat) (v w : α) :
    arrSet u (arrSet u a i v) i w = arrSet u a i w := by
  unfold arrSet
  by_cases h : i < a.length
  · simp [h]
  · have hlen : (a ++ List.replicate (i - a.length) u ++ [v]).length = i + 1 := by
      simp only [List.length_append, List.length_replicate, List.length_singleton]
      omega
    have hpre : (a ++ List.replicate (i - a.length) u).length = i := by
      simp only [List.length_append, List.length_replicate]
      omega
    rw [if_neg h, if_neg h, if_pos (by rw [hlen]; omega)]
    rw [List.set_append_right _ _ (by rw [hpre]), hpre]
    simp

/-- C15 (`defineBlock` overwrites).  Calling `defineBlock(id, a)` and then
`defineBlock(id, b)` leaves the engine, registry included, exactly as calling only
`defineBlock(id, b)`: the entry of `id` is `b`, and `blockToMaterial(id, d)` gives for
every face `d` what it gives after the single registration of `b`. -/
theorem defineBlock_overwrites {W : Type} (noa : Engine W) (id : Nat) (a b : MatEntry) :
    defineBlock (defineBlock noa id a) id b = defineBlock noa id b ∧
    arrGet MatEntry.undefined (defineBlock (defineBlock noa id a) id b).blockMaterialMap id
      = b ∧
    (∀ d : Nat, blockToMaterial (defineBlock (defineBlock noa id a) id b) id d
      = blockToMaterial (defineBlock noa id b) id d) := by
  have h : defineBlock (defineBlock noa id a) id b = defineBlock noa id b := by
    simp only [defineBlock, arrSet_arrSet]
  refine ⟨h, ?_, ?_⟩
  · rw [h]
    exact arrGet_arrSet_same _ _ _ _
  · intro d
    rw [h]

/-! ### Targeting distance -/

/-- C16 (bounded targeting distance).  The ray query made by `pick(pos, vec, dist)` gets
the distance `dist` when `dist` is given and non-zero, and `blockTestDistance` when it
is omitted or zero; the constructor sets `blockTestDistance` to `opts.blockTestDistance`
when that is given and non-zero, and to 10 when it is omitted or zero; and
`doBlockTargeting` queries with `blockTestDistance` and leaves it unchanged. -/
theorem targeting_distance {W : Type} (c : Collab W) (noa : Engine W)
    (pos vec : Option Point) :
    (∀ d : ℚ, d ≠ 0 → (pick c noa pos vec (some d)).2.calls = noa.calls ++
      [Call.traceRay (pos.getD (getCameraPosition noa)) (vec.getD (getCameraVector c noa)) d]) ∧
    (∀ dist : Option ℚ, dist = none ∨ dist = some 0 →
      (pick c noa pos vec dist).2.calls = noa.calls ++
        [Call.traceRay (pos.getD (getCameraPosition noa)) (vec.getD (getCameraVector c noa))
          noa.blockTestDistance]) ∧
    (∀ (opts : Opts) (world : W) (body : PlayerBody) (crot : Rotation) (inputs : InputState)
        (lock : Bool) (rnd : Nat → ℚ),
      (∀ d : ℚ, d ≠ 0 → opts.blockTestDistance = some d →
        (mkEngine opts world body crot inputs lock rnd).blockTestDistance = d) ∧
      (opts.blockTestDistance = none ∨ opts.blockTestDistance = some 0 →
        (mkEngine opts world body crot inputs lock rnd).blockTestDistance = 10)) ∧
    (∃ (act : Bool) (x y z : Option Int), (doBlockTargeting c noa).calls = noa.calls ++
      [Call.traceRay (getCameraPosition noa) (getCameraVector c noa) noa.blockTestDistance,
        Call.highlightBlock act x y z]) ∧
    (doBlockTargeting c noa).blockTestDistance = noa.blockTestDistance := by
  have hpick : ∀ dist : Option ℚ, (pick c noa pos vec dist).2.calls = noa.calls ++
      [Call.traceRay (pos.getD (getCameraPosition noa)) (vec.getD (getCameraVector c noa))
        (match dist with
          | some d => if d = 0 then noa.blockTestDistance else d
          | none => noa.blockTestDistance)] := by
    intro dist
    unfold pick
    simp only
    cases pos <;> cases vec <;> split <;> rfl
  have hmk : ∀ (opts : Opts) (world : W) (body : PlayerBody) (crot : Rotation)
      (inputs : InputState) (lock : Bool) (rnd : Nat → ℚ),
      (mkEngine opts world body crot inputs lock rnd).blockTestDistance =
        match opts.blockTestDistance with
        | some d => if d = 0 then 10 else d
        | none => 10 := by
    intros
    rfl
  refine ⟨?_, ?_, ?_, (doBlockTargeting_frame c noa).2.2.2.2.2,
    (doBlockTargeting_frame c noa).2.2.2.2.1⟩
  · intro d hd
    rw [hpick]
    simp only [hd, if_false]
  · intro dist hdist
    rw [hpick]
    rcases hdist with h | h <;> subst h <;> simp
  · intro opts world body crot inputs lock rnd
    refine ⟨?_, ?_⟩
    · intro d hd ho
      rw [hmk, ho]
      simp only [hd, if_false]
    · intro ho
      rw [hmk]
      rcases ho with h | h
      · rw [h]
      · rw [h]
        simp

/-- C16 evaluated: `pick` with distance 4 queries with 4, `pick` with distance 0 and the
targeting update of a default engine query with 10. -/
theorem targeting_distance_witness :
    (pick (gridCollab missHit) (freshEngine []) none none (some 4)).2.calls
      = [Call.traceRay ⟨0 + 1 / 3, 30 + 3 / 2, 0 + 1 / 3⟩ ⟨0, 0, 1⟩ 4] ∧
    (pick (gridCollab missHit) (freshEngine []) none none (some 0)).2.calls
      = [Call.traceRay ⟨0 + 1 / 3, 30 + 3 / 2, 0 + 1 / 3⟩ ⟨0, 0, 1⟩ 10] :=
  ⟨(targeting_distance (gridCollab missHit) (freshEngine []) none none).1 4 (by norm_num),
   (targeting_distance (gridCollab missHit) (freshEngine []) none none).2.1 (some 0)
      (Or.inr rfl)⟩

/-! ### The cached cells -/

/-- A cell plus an axis unit normal is face-adjacent to the cell. -/
theorem faceAdjacent_add (t n : Cell) (hn : IsAxisUnit n) :
    FaceAdjacent t ⟨t.x + n.x, t.y + n.y, t.z + n.z⟩ := by
  unfold FaceAdjacent
  rcases hn with ⟨hx, hy, hz⟩ | ⟨hx, hy, hz⟩ | ⟨hx, hy, hz⟩
  · left
    refine ⟨?_, by simp [hy], by simp [hz]⟩
    rcases hx with h | h <;> simp [h]
  · right; left
    refine ⟨by simp [hx], ?_, by simp [hz]⟩
    rcases hy with h | h <;> simp [h]
  · right; right
    refine ⟨by simp [hx], by simp [hy], ?_⟩
    rcases hz with h | h <;> simp [h]

/-- With axis unit normals from the ray query, in every reachable state a cached
placement cell is face-adjacent to the cached target cell. -/
theorem reachable_faceAdjacent {W : Type} (c : Collab W) (hax : AxisNormals c)
    (noa : Engine W) (hr : Reachable c noa) :
    ∀ t p : Cell, noa._blockTargetLoc = some t → noa._blockPlacementLoc = some p →
      FaceAdjacent t p := by
  induction hr with
  | init opts world body crot inputs lock rnd =>
    intro t p ht
    simp at ht
  | targeting noa _ _ =>
    intro t p ht hp
    rw [doBlockTargeting_eq] at ht hp
    by_cases h : (c.raycast noa.world (getCameraPosition noa) (getCameraVector c noa)
        noa.blockTestDistance).block ≠ 0
    · rw [if_pos h] at ht hp
      simp only [Option.some.injEq] at ht hp
      subst ht hp
      exact faceAdjacent_add _ _ (hax _ _ _ _ h)
    · rw [if_neg h] at ht
      simp at ht
  | fire noa noa' type _ hf ih =>
    have h := handleFireEvent_cache c noa noa' type hf
    rw [h.1, h.2]
    exact ih
  | other noa noa' _ h1 h2 ih =>
    rw [h1, h2]
    exact ih

/-- With both cells cached, or with no target cell, a fire event of any type returns
normally. -/
theorem handleFireEvent_returns {W : Type} (c : Collab W) (noa : Engine W) (type : Nat)
    (h : noa._blockTargetLoc = none ↔ noa._blockPlacementLoc = none) :
    ∃ noa', handleFireEvent c noa type = Except.ok noa' := by
  cases ht : noa._blockTargetLoc with
  | none => exact ⟨noa, handleFireEvent_no_target c noa type ht⟩
  | some t =>
    cases hp : noa._blockPlacementLoc with
    | none =>
      rw [h.mpr hp] at ht
      cases ht
    | some p =>
      by_cases h3 : type = 3
      · subst h3
        exact ⟨_, handleFireEvent_place c noa t p ht hp⟩
      · by_cases h1 : type = 1
        · subst h1
          exact ⟨_, handleFireEvent_destroy c noa t ht⟩
        · by_cases h2 : type = 2
          · subst h2
            exact ⟨_, handleFireEvent_pick c noa t ht⟩
          · refine ⟨noa, ?_⟩
            simp [handleFireEvent, ht, h1, h2, h3]

/-- A `tick()` of a reachable engine leaves a reachable engine. -/
theorem reachable_tick {W : Type} (c : Collab W) (now : Int) (noa : Engine W)
    (hr : Reachable c noa) : Reachable c (tick c now noa) := by
  obtain ⟨n5, _, _, _, _, _, h6, h7, ht⟩ := tick_split c now noa
  rw [ht]
  exact Reachable.other _ _ (Reachable.targeting _ (Reachable.other _ _ hr h6 h7)) rfl rfl

/-- C17 (cache invariant).  In every state reachable from construction by targeting
updates and fire events (and steps that do not assign the cached cells): the target cell
is none exactly when the placement cell is none; if the ray query reports axis unit
normals, a cached placement cell differs from the cached target cell by exactly 1 in
exactly one coordinate; and a fire event of any type returns normally, so the handler's
one test of the target cell guards its use of the placement cell. -/
theorem cache_invariant {W : Type} (c : Collab W) (noa : Engine W) (hr : Reachable c noa) :
    (noa._blockTargetLoc = none ↔ noa._blockPlacementLoc = none) ∧
    (AxisNormals c → ∀ t p : Cell, noa._blockTargetLoc = some t →
      noa._blockPlacementLoc = some p → FaceAdjacent t p) ∧
    (∀ type : Nat, ∃ noa', handleFireEvent c noa type = Except.ok noa') := by
  refine ⟨reachable_cache_none_iff c noa hr, ?_, ?_⟩
  · intro hax
    exact reachable_faceAdjacent c hax noa hr
  · intro type
    exact handleFireEvent_returns c noa type (reachable_cache_none_iff c noa hr)

/-- C17 evaluated on the engine reached by a tick that hits at `(7/2, -1/2, 2)` with
normal `(0,1,0)` and a destroy event: the cells `(3,-1,2)` and `(3,0,2)` are cached. -/
theorem cache_invariant_witness :
    ∃ noa : Engine GridWorld, Reachable (gridCollab ⟨3, ⟨7 / 2, -1 / 2, 2⟩, ⟨0, 1, 0⟩⟩) noa ∧
      (noa._blockTargetLoc = none ↔ noa._blockPlacementLoc = none) ∧
      (∀ t p : Cell, noa._blockTargetLoc = some t → noa._blockPlacementLoc = some p →
        FaceAdjacent t p) ∧
      (∀ type : Nat, ∃ noa',
        handleFireEvent (gridCollab ⟨3, ⟨7 / 2, -1 / 2, 2⟩, ⟨0, 1, 0⟩⟩) noa type
          = Except.ok noa') := by
  have hax : AxisNormals (gridCollab ⟨3, ⟨7 / 2, -1 / 2, 2⟩, ⟨0, 1, 0⟩⟩) := by
    intro w pos vec dist _
    right; left
    exact ⟨rfl, Or.inl rfl, rfl⟩
  have hr : Reachable (gridCollab ⟨3, ⟨7 / 2, -1 / 2, 2⟩, ⟨0, 1, 0⟩⟩)
      (tick (gridCollab ⟨3, ⟨7 / 2, -1 / 2, 2⟩, ⟨0, 1, 0⟩⟩) 1250 (freshEngine [])) :=
    reachable_tick _ _ _ (Reachable.init _ _ _ _ _ _ _)
  obtain ⟨n1, h1⟩ := handleFireEvent_returns (gridCollab ⟨3, ⟨7 / 2, -1 / 2, 2⟩, ⟨0, 1, 0⟩⟩)
    (tick (gridCollab ⟨3, ⟨7 / 2, -1 / 2, 2⟩, ⟨0, 1, 0⟩⟩) 1250 (freshEngine [])) 1
    (reachable_cache_none_iff _ _ hr)
  have hr1 := Reachable.fire _ n1 1 hr h1
  exact ⟨n1, hr1, (cache_invariant _ n1 hr1).1, (cache_invariant _ n1 hr1).2.1 hax,
    (cache_invariant _ n1 hr1).2.2⟩

/-! ### The default registry -/

/-- C18 (default registry closure).  On the constructed engine, for every block `b` in
1..28 and every face `d` in 0..5, `blockToMaterial(b, d)` is a material id `m` in 1..29
and `materialColors[m]` holds a colour set by `defineMaterial`; for block 29 every face
resolves to material 30, and `materialColors[30]` is `undefined`. -/
theorem default_registry_closure {W : Type} (opts : Opts) (world : W) (body : PlayerBody)
    (crot : Rotation) (inputs : InputState) (lock : Bool) (rnd : Nat → ℚ) :
    (∀ b d : Nat, 1 ≤ b → b ≤ 28 → d ≤ 5 →
      ∃ (m : Nat) (col : Point),
        blockToMaterial (mkEngine opts world body crot inputs lock rnd) b d
          = Except.ok (MatEntry.scalar m) ∧
        1 ≤ m ∧ m ≤ 29 ∧
        arrGet ColorEntry.undefined
          (mkEngine opts world body crot inputs lock rnd).materialColors m
          = ColorEntry.rgb col) ∧
    (∀ d : Nat, blockToMaterial (mkEngine opts world body crot inputs lock rnd) 29 d
      = Except.ok (MatEntry.scalar 30)) ∧
    arrGet ColorEntry.undefined
      (mkEngine opts world body crot inputs lock rnd).materialColors 30
      = ColorEntry.undefined := by
  refine ⟨?_, ?_, ?_⟩
  · intro b d hb1 hb2 hd
    unfold blockToMaterial
    rw [mkEngine_blockMaterialMap, mkEngine_materialColors]
    interval_cases b <;> interval_cases d <;>
      exact ⟨_, _, rfl, by decide, by decide, rfl⟩
  · intro d
    unfold blockToMaterial
    rw [mkEngine_blockMaterialMap]
    rfl
  · rw [mkEngine_materialColors]
    rfl

/-- C18 evaluated on a fresh engine: block 28 resolves to a material in 1..29 that has a
colour, block 29 resolves to material 30, which has none. -/
theorem default_registry_closure_witness :
    (∃ (m : Nat) (col : Point),
      blockToMaterial (freshEngine []) 28 4 = Except.ok (MatEntry.scalar m) ∧
      1 ≤ m ∧ m ≤ 29 ∧
      arrGet ColorEntry.undefined (freshEngine []).materialColors m = ColorEntry.rgb col) ∧
    blockToMaterial (freshEngine []) 29 4 = Except.ok (MatEntry.scalar 30) ∧
    arrGet ColorEntry.undefined (freshEngine []).materialColors 30 = ColorEntry.undefined :=
  ⟨(default_registry_closure ⟨none, "textures/"⟩ [] ⟨pbox⟩ ⟨0, 0⟩ ⟨0, 0, false⟩ false
      (fun _ => 1 / 2)).1 28 4 (by decide) (by decide) (by decide),
   (default_registry_closure ⟨none, "textures/"⟩ [] ⟨pbox⟩ ⟨0, 0⟩ ⟨0, 0, false⟩ false
      (fun _ => 1 / 2)).2.1 4,
   (default_registry_closure ⟨none, "textures/"⟩ [] ⟨pbox⟩ ⟨0, 0⟩ ⟨0, 0, false⟩ false
      (fun _ => 1 / 2)).2.2⟩

/-! ### Frame of the fire events -/

/-- Every way a fire event can return: unchanged, or as the destroy, pick or place of
the cached cells. -/
theorem handleFireEvent_cases {W : Type} (c : Collab W) (noa noa' : Engine W) (type : Nat)
    (h : handleFireEvent c noa type = Except.ok noa') :
    noa' = noa ∨
    (type = 1 ∧ ∃ t : Cell, noa' = { noa with
      world := c.setBlock noa.world 0 t.x t.y t.z
      calls := noa.calls ++ [Call.setBlock 0 t.x t.y t.z] }) ∨
    (type = 2 ∧ ∃ t : Cell, noa' = { noa with
      _placeBlockID := c.getBlock noa.world t.x t.y t.z
      calls := noa.calls ++ [Call.getBlock t.x t.y t.z] }) ∨
    (type = 3 ∧ ∃ p : Cell, noa' = { noa with
      world := c.setBlock noa.world noa._placeBlockID p.x p.y p.z
      calls := noa.calls ++ [Call.setBlock noa._placeBlockID p.x p.y p.z] }) := by
  rcases Option.eq_none_or_eq_some noa._blockTargetLoc with ht | ⟨t, ht⟩
  · rw [handleFireEvent_no_target c noa type ht] at h
    exact Or.inl (Except.ok.inj h).symm
  · by_cases h1 : type = 1
    · subst h1
      rw [handleFireEvent_destroy c noa t ht] at h
      exact Or.inr (Or.inl ⟨rfl, t, (Except.ok.inj h).symm⟩)
    · by_cases h2 : type = 2
      · subst h2
        rw [handleFireEvent_pick c noa t ht] at h
        exact Or.inr (Or.inr (Or.inl ⟨rfl, t, (Except.ok.inj h).symm⟩))
      · by_cases h3 : type = 3
        · subst h3
          rcases Option.eq_none_or_eq_some noa._blockPlacementLoc with hp | ⟨p, hp⟩
          · simp [handleFireEvent, ht, hp, noCollisionsAt] at h
          · rw [handleFireEvent_place c noa t p ht hp] at h
            have h' := (Except.ok.inj h).symm
            split at h'
            · exact Or.inl h'
            · exact Or.inr (Or.inr (Or.inr ⟨rfl, p, h'⟩))
        · simp [handleFireEvent, ht, h1, h2, h3] at h
          exact Or.inl h.symm

/-- C19 (frame of the three fire actions).  Whenever a fire event returns, the cached
target and placement cells are as before.  A fire (destroy, type 1) and an alt-fire
(place, type 3) event leave `_placeBlockID` unchanged; a mid-fire (pick, type 2) event
adds no `world.setBlock` call and leaves the world unchanged.  Fire and mid-fire events
always return, and so does an alt-fire event in every reachable state. -/
theorem fire_frame {W : Type} (c : Collab W) (noa : Engine W) :
    (∀ (type : Nat) (noa' : Engine W), handleFireEvent c noa type = Except.ok noa' →
      noa'._blockTargetLoc = noa._blockTargetLoc ∧
      noa'._blockPlacementLoc = noa._blockPlacementLoc) ∧
    (∃ noa', handleFireEvent c noa 1 = Except.ok noa' ∧
      noa'._placeBlockID = noa._placeBlockID) ∧
    (∃ noa', handleFireEvent c noa 2 = Except.ok noa' ∧
      setBlockCalls noa'.calls = setBlockCalls noa.calls ∧ noa'.world = noa.world) ∧
    (∀ noa' : Engine W, handleFireEvent c noa 3 = Except.ok noa' →
      noa'._placeBlockID = noa._placeBlockID) ∧
    (Reachable c noa → ∃ noa', handleFireEvent c noa 3 = Except.ok noa') := by
  refine ⟨fun type noa' h => handleFireEvent_cache c noa noa' type h, ?_, ?_, ?_, ?_⟩
  · cases ht : noa._blockTargetLoc with
    | none => exact ⟨noa, handleFireEvent_no_target c noa 1 ht, rfl⟩
    | some t => exact ⟨_, handleFireEvent_destroy c noa t ht, rfl⟩
  · cases ht : noa._blockTargetLoc with
    | none => exact ⟨noa, handleFireEvent_no_target c noa 2 ht, rfl, rfl⟩
    | some t =>
      refine ⟨_, handleFireEvent_pick c noa t ht, ?_, rfl⟩
      simp [setBlockCalls, List.filter_append, Call.isSetBlock]
  · intro noa' h
    rcases handleFireEvent_cases c noa noa' 3 h with h0 | ⟨h1, _⟩ | ⟨h2, _⟩ | ⟨_, p, hp⟩
    · rw [h0]
    · cases h1
    · cases h2
    · rw [hp]
  · intro hr
    exact handleFireEvent_returns c noa 3 (reachable_cache_none_iff c noa hr)

/-- C19 evaluated on an engine aiming at `(4,1,-2)` with placement cell `(4,2,-2)`: the
three events return, the held block stays 2 under destroy and place, and pick records
no `setBlock` call. -/
theorem fire_frame_witness :
    (∃ noa', handleFireEvent (gridCollab missHit)
        (aimedEngine [(⟨4, 1, -2⟩, 7)] (some ⟨4, 1, -2⟩) (some ⟨4, 2, -2⟩)) 1 = Except.ok noa' ∧
      noa'._placeBlockID = 2) ∧
    (∃ noa', handleFireEvent (gridCollab missHit)
        (aimedEngine [(⟨4, 1, -2⟩, 7)] (some ⟨4, 1, -2⟩) (some ⟨4, 2, -2⟩)) 2 = Except.ok noa' ∧
      setBlockCalls noa'.calls = []) := by
  obtain ⟨_, ⟨n1, h1, h1'⟩, ⟨n2, h2, h2', _⟩, _, _⟩ := fire_frame (gridCollab missHit)
    (aimedEngine [(⟨4, 1, -2⟩, 7)] (some ⟨4, 1, -2⟩) (some ⟨4, 2, -2⟩))
  exact ⟨⟨n1, h1, h1'⟩, n2, h2, h2'⟩

end Noa
